import Mathlib

/-!
Verification of the signal-fusion and gating pipeline of the stock-market
analysis agent.  The Python sources are shallowly embedded over ℚ (prices,
scores, weights) and ℝ (the single genuinely transcendental operation,
np.tanh, in the MACD score).  Machine-float behaviour that is observable in
the sources is modelled explicitly:

* pandas produces NaN for 0/0 and +inf for x/0 (x > 0) inside the RSI
  computation; we model the RSI value as an Option ℚ where none stands for
  NaN, and fold the two exceptional branches of the float division into the
  definition (see calculate_rsi).
* Python float division by zero raises ZeroDivisionError; where a division
  by zero is reachable the embedding either guards it with an explicit
  error (check_market_conditions) or the theorems restrict the input domain
  so that the divisor is provably nonzero (positive prices).  Outside those
  domains ℚ division is total with x / 0 = 0.
* Python round(x, 2) is round-half-to-even at two decimals (pyRound2).
* dataclass __post_init__ validation raising ValueError is modelled by
  constructor functions returning Except String.
-/

namespace StockAgent

/-- A single OHLCV price point, from src/models.py PricePoint.  The date
field is dropped: histories are taken in chronological order, so the
DataFrame sort_values step in the analyzer is the identity. -/
structure PricePoint where
  openPrice : ℚ
  highPrice : ℚ
  lowPrice : ℚ
  closePrice : ℚ
  volume : ℕ
deriving DecidableEq

/-- The PricePoint.__post_init__ validation of src/models.py: prices are
nonnegative and open/close lie between low and high. -/
def PricePoint.wf (p : PricePoint) : Prop :=
  0 ≤ p.openPrice ∧ 0 ≤ p.highPrice ∧ 0 ≤ p.lowPrice ∧ 0 ≤ p.closePrice ∧
  p.lowPrice ≤ p.highPrice ∧
  p.lowPrice ≤ p.openPrice ∧ p.openPrice ≤ p.highPrice ∧
  p.lowPrice ≤ p.closePrice ∧ p.closePrice ≤ p.highPrice

instance (p : PricePoint) : Decidable p.wf := by
  unfold PricePoint.wf; infer_instance

/-- Mean of the last k entries of a list of rationals.  This is the value
of pandas rolling(window=k).mean().iloc[-1] whenever the series has at
least k entries. -/
def lastMean (k : ℕ) (xs : List ℚ) : ℚ :=
  (xs.drop (xs.length - k)).sum / k

/-- Closing prices of a history, oldest first. -/
def closes (l : List PricePoint) : List ℚ := l.map (·.closePrice)

/-- Current price used by TechnicalAnalyzer.analyze: prices[-1].close. -/
def currentPrice (l : List PricePoint) : ℚ :=
  ((closes l).getLast?).getD 0

/-- Python chained comparison lo <= x <= hi on a possibly-NaN float,
modelled on Option ℚ: any comparison with NaN is False. -/
def pyBetween (lo : ℚ) (x : Option ℚ) (hi : ℚ) : Bool :=
  match x with
  | none => false
  | some v => decide (lo ≤ v) && decide (v ≤ hi)

/-- Python comparison x < b where x may be NaN (none): NaN < b is False. -/
def pyLt (x : Option ℚ) (b : ℚ) : Bool :=
  match x with
  | none => false
  | some v => decide (v < b)

/-- Python comparison x > b where x may be NaN (none): NaN > b is False. -/
def pyGt (x : Option ℚ) (b : ℚ) : Bool :=
  match x with
  | none => false
  | some v => decide (b < v)

/-- Round-half-to-even to an integer, the rounding used by Python round. -/
def roundHalfEven (y : ℚ) : ℤ :=
  let n := ⌊y⌋
  let f := y - n
  if f < 1/2 then n
  else if 1/2 < f then n + 1
  else if n % 2 = 0 then n else n + 1

/-- Python round(x, 2): round-half-to-even at two decimal places. -/
def pyRound2 (x : ℚ) : ℚ := (roundHalfEven (x * 100) : ℚ) / 100

/-! ## Indicator Engine (src/technical_analyzer.py) -/

/-- TechnicalAnalyzer.calculate_moving_averages: 20/50/200-day simple
moving averages with fallback to the shorter window when data is missing,
and a ValueError below 20 points.  Returns (ma_20, ma_50, ma_200). -/
def calculate_moving_averages (l : List PricePoint) :
    Except String (ℚ × ℚ × ℚ) :=
  if l.length < 20 then
    .error "Need at least 20 price points to calculate moving averages"
  else
    let ma20 := lastMean 20 (closes l)
    let ma50 := if 50 ≤ l.length then lastMean 50 (closes l) else ma20
    let ma200 := if 200 ≤ l.length then lastMean 200 (closes l) else ma50
    .ok (ma20, ma50, ma200)

/-- Day-over-day close changes, the non-NaN part of df close diff. -/
def priceDiffs (l : List PricePoint) : List ℚ :=
  List.zipWith (fun a b => a - b) (closes l).tail (closes l)

/-- Gains series delta.where(delta > 0, 0.0), restricted to real diffs. -/
def gainsOf (l : List PricePoint) : List ℚ :=
  (priceDiffs l).map (fun d => if 0 < d then d else 0)

/-- Losses series -delta.where(delta < 0, 0.0), restricted to real diffs. -/
def lossesOf (l : List PricePoint) : List ℚ :=
  (priceDiffs l).map (fun d => if d < 0 then -d else 0)

/-- Average gain over the trailing 14-diff window (iloc[-1] of the rolling
mean; the leading NaN diff entry is outside the window once the history has
at least 15 points). -/
def avgGain (l : List PricePoint) : ℚ := lastMean 14 (gainsOf l)

/-- Average loss over the trailing 14-diff window. -/
def avgLoss (l : List PricePoint) : ℚ := lastMean 14 (lossesOf l)

/-- Raw RSI value with the float semantics of rsi = 100 - 100/(1 + g/l):
l > 0 gives the finite formula; l = 0 with g > 0 gives rs = +inf and hence
rsi = 100; g = l = 0 gives rs = NaN and hence rsi = NaN (none). -/
def rsiVal (l : List PricePoint) : Option ℚ :=
  if 0 < avgLoss l then some (100 - 100 / (1 + avgGain l / avgLoss l))
  else if 0 < avgGain l then some 100
  else none

/-- TechnicalAnalyzer.calculate_rsi with its period+1 data guard
(period = 14). -/
def calculate_rsi (l : List PricePoint) : Except String (Option ℚ) :=
  if l.length < 15 then
    .error "Need at least 15 price points to calculate RSI"
  else .ok (rsiVal l)

/-- Exponential moving average recursion of pandas ewm(span, adjust=False):
y0 = x0, y(t) = (1-a)*y(t-1) + a*x(t), emitted pointwise. -/
def emaAux (a : ℚ) (y : ℚ) : List ℚ → List ℚ
  | [] => []
  | x :: xs =>
    let y2 := (1 - a) * y + a * x
    y2 :: emaAux a y2 xs

/-- Pointwise EMA series of a list for smoothing factor a = 2/(span+1). -/
def emaList (a : ℚ) : List ℚ → List ℚ
  | [] => []
  | x :: xs => x :: emaAux a x xs

/-- MACD line series: 12-period EMA minus 26-period EMA, pointwise. -/
def macdSeries (l : List PricePoint) : List ℚ :=
  List.zipWith (fun a b => a - b)
    (emaList (2/13) (closes l)) (emaList (2/27) (closes l))

/-- Signal line series: 9-period EMA of the MACD line. -/
def signalSeries (l : List PricePoint) : List ℚ :=
  emaList (2/10) (macdSeries l)

/-- TechnicalAnalyzer.calculate_macd: last MACD and signal values, with the
35-point guard. -/
def calculate_macd (l : List PricePoint) : Except String (ℚ × ℚ) :=
  if l.length < 35 then
    .error "Need at least 35 price points to calculate MACD"
  else .ok ((macdSeries l).getLast?.getD 0, (signalSeries l).getLast?.getD 0)

/-- True-range series: the first row has NaN previous close, and the
pandas row-max skips NaN, leaving high - low; later rows take the max of
high - low, |high - prevClose| and |low - prevClose|. -/
def trueRanges (l : List PricePoint) : List ℚ :=
  match l with
  | [] => []
  | p :: _ =>
    (p.highPrice - p.lowPrice) ::
      List.zipWith
        (fun q prev =>
          max (q.highPrice - q.lowPrice)
            (max |q.highPrice - prev.closePrice| |q.lowPrice - prev.closePrice|))
        l.tail l

/-- TechnicalAnalyzer.calculate_atr with period 14.  Note that unlike the
other indicator functions (and unlike its own docstring) it does not raise
on insufficient data: it returns the default 0.0. -/
def calculate_atr (l : List PricePoint) (period : ℕ) : ℚ :=
  if l.length < period + 1 then 0
  else lastMean period (trueRanges l)

/-- Element access with scipy take(mode=clip): out-of-range indices are
clamped to the boundary. -/
def clipGet (xs : List ℚ) (i : ℤ) : ℚ :=
  xs.getD (min (max i 0) (xs.length - 1)).toNat 0

/-- One comparison row of scipy _boolrelextrema: index i survives iff
data[i] cmp data[i+s] and data[i] cmp data[i-s] for every shift 1..order,
with clipped boundary access. -/
def isRelExtremum (cmp : ℚ → ℚ → Bool) (xs : List ℚ) (order : ℕ) (i : ℕ) : Bool :=
  (List.range order).all fun s =>
    cmp (clipGet xs i) (clipGet xs ((i : ℤ) + (s + 1))) &&
    cmp (clipGet xs i) (clipGet xs ((i : ℤ) - (s + 1)))

/-- Indices of local extrema in argrelextrema style. -/
def relExtremaIdx (cmp : ℚ → ℚ → Bool) (xs : List ℚ) (order : ℕ) : List ℕ :=
  (List.range xs.length).filter (isRelExtremum cmp xs order)

/-- Arithmetic mean of a list (Python sum(c)/len(c)). -/
def avgList (c : List ℚ) : ℚ := c.sum / c.length

/-- Recursive worker for _cluster_levels: extend the current cluster while
the next sorted level is within 2 percent of the running cluster average,
else emit the average and restart.  A zero cluster average makes Python
raise ZeroDivisionError; the theorems restrict to positive prices, where
the average of a cluster is positive and the branch is unreachable. -/
def clusterGo (cur : List ℚ) : List ℚ → List ℚ
  | [] => [avgList cur]
  | x :: xs =>
    if |x - avgList cur| / avgList cur ≤ 2/100 then clusterGo (cur ++ [x]) xs
    else avgList cur :: clusterGo [x] xs

/-- TechnicalAnalyzer._cluster_levels with the default 2 percent
threshold. -/
def cluster_levels (levels : List ℚ) : List ℚ :=
  match levels.mergeSort (fun a b => decide (a ≤ b)) with
  | [] => []
  | x :: xs => clusterGo [x] xs

/-- TechnicalAnalyzer.find_support_resistance: local minima of lows and
local maxima of highs with adaptive order max(5, n/20), clustered, sorted
and truncated to the five most significant levels each. -/
def find_support_resistance (l : List PricePoint) :
    Except String (List ℚ × List ℚ) :=
  if l.length < 20 then
    .error "Need at least 20 price points to find support/resistance"
  else
    let lows := l.map (·.lowPrice)
    let highs := l.map (·.highPrice)
    let order := max 5 (l.length / 20)
    let supIdx := relExtremaIdx (fun a b => decide (a ≤ b)) lows order
    let resIdx := relExtremaIdx (fun a b => decide (b ≤ a)) highs order
    let sup := cluster_levels (supIdx.map (fun i => lows.getD i 0))
    let res := cluster_levels (resIdx.map (fun i => highs.getD i 0))
    let supSorted := sup.mergeSort (fun a b => decide (a ≤ b))
    let resSorted := res.mergeSort (fun a b => decide (a ≤ b))
    .ok (supSorted.drop (supSorted.length - 5),
         resSorted.drop (resSorted.length - 5))

/-- Technical indicator record, from src/models.py TechnicalIndicators.
rsi is an Option ℚ because the pandas RSI can be NaN; all other indicator
values are total rationals on the guarded domain; the technical score,
strength and confidence involve np.tanh and so live in ℝ. -/
structure TechnicalIndicators where
  symbol : String
  ma_20 : ℚ
  ma_50 : ℚ
  ma_200 : ℚ
  rsi : Option ℚ
  macd : ℚ
  macd_signal : ℚ
  support_levels : List ℚ
  resistance_levels : List ℚ
  technical_score : ℝ
  atr : ℚ
  direction : String
  strength : ℝ
  confidence : ℝ
  regime : String

open Classical in
/-- TechnicalIndicators.__post_init__ validation of src/models.py,
executed at construction time only (later dataclass field mutation is
unchecked).  The NaN RSI fails the chained 0 <= rsi <= 100 comparison, so
the not-branch raises. -/
noncomputable def mkTechnicalIndicators (symbol : String)
    (ma20 ma50 ma200 : ℚ) (rsi : Option ℚ) (macd macdSig : ℚ)
    (sup res : List ℚ) (score : ℝ) (atr : ℚ)
    (direction : String) (strength confidence : ℝ) (regime : String) :
    Except String TechnicalIndicators :=
  if symbol = "" then .error "Symbol cannot be empty"
  else if ¬ (pyBetween 0 rsi 100 = true) then
    .error "RSI must be between 0 and 100"
  else if ¬ (-1 ≤ score ∧ score ≤ 1) then
    .error "Technical score must be between -1.0 and 1.0"
  else if ¬ (direction = "bullish" ∨ direction = "bearish" ∨ direction = "neutral") then
    .error "Direction must be bullish, bearish, or neutral"
  else if ¬ (0 ≤ strength ∧ strength ≤ 1) then
    .error "Strength must be between 0.0 and 1.0"
  else if ¬ (0 ≤ confidence ∧ confidence ≤ 1) then
    .error "Confidence must be between 0.0 and 1.0"
  else if ¬ (regime = "bullish-trend" ∨ regime = "bearish-trend" ∨
             regime = "oversold-zone" ∨ regime = "overbought-zone" ∨
             regime = "neutral" ∨ regime = "consolidation") then
    .error "Regime must be a valid regime"
  else
    .ok ⟨symbol, ma20, ma50, ma200, rsi, macd, macdSig, sup, res, score,
         atr, direction, strength, confidence, regime⟩

/-- TechnicalAnalyzer.classify_regime: priority-ordered regime rules over
price, moving averages, RSI (NaN comparisons are False) and MACD. -/
def classify_regime (price : ℚ) (ti : TechnicalIndicators) : String :=
  if pyLt ti.rsi 25 && decide (ti.macd < 0) && decide (price < ti.ma_20) then
    "oversold-zone"
  else if pyGt ti.rsi 75 && decide (0 < ti.macd) && decide (ti.ma_20 < price) then
    "overbought-zone"
  else if (decide (ti.ma_20 < price) && decide (ti.ma_50 < ti.ma_20) &&
           decide (ti.ma_200 < ti.ma_50)) &&
          (decide (0 < ti.macd) && pyBetween 50 ti.rsi 70) then
    "bullish-trend"
  else if (decide (price < ti.ma_20) && decide (ti.ma_20 < ti.ma_50) &&
           decide (ti.ma_50 < ti.ma_200)) &&
          (decide (ti.macd < 0) && pyBetween 30 ti.rsi 50) then
    "bearish-trend"
  else if decide (ti.ma_20 < price) && decide (0 < ti.macd) then
    "bullish-trend"
  else if decide (price < ti.ma_20) && decide (ti.macd < 0) then
    "bearish-trend"
  else
    "consolidation"

/-- TechnicalAnalyzer.map_regime_to_direction: regime to (direction,
strength multiplier), defaulting to ("neutral", 0.5). -/
def map_regime_to_direction (regime : String) : String × ℝ :=
  if regime = "bullish-trend" then ("bullish", 1)
  else if regime = "bearish-trend" then ("bearish", 1)
  else if regime = "oversold-zone" then ("bearish-exhaustion", 0.8)
  else if regime = "overbought-zone" then ("bullish-exhaustion", 0.8)
  else if regime = "consolidation" then ("neutral", 0.5)
  else if regime = "neutral" then ("neutral", 0.5)
  else ("neutral", 0.5)

/-- TechnicalAnalyzer._calculate_ma_score: alignment score from the three
moving averages. -/
def ma_score (ti : TechnicalIndicators) : ℚ :=
  (if ti.ma_50 < ti.ma_20 then (33:ℚ)/100 else -(33:ℚ)/100) +
  (if ti.ma_200 < ti.ma_50 then (33:ℚ)/100 else -(33:ℚ)/100) +
  (if ti.ma_50 < ti.ma_20 ∧ ti.ma_200 < ti.ma_50 then (34:ℚ)/100
   else if ti.ma_20 < ti.ma_50 ∧ ti.ma_50 < ti.ma_200 then -(34:ℚ)/100
   else 0)

/-- TechnicalAnalyzer._calculate_rsi_score on a non-NaN RSI value. -/
def rsi_score (r : ℚ) : ℚ :=
  if 70 < r then -(r - 70) / 30
  else if r < 30 then (30 - r) / 30
  else (r - 50) / 100

/-- TechnicalAnalyzer.generate_technical_score: weighted sum of the moving
average score (30 percent), the RSI score (30 percent) and the tanh-scaled
MACD score (40 percent), clamped to [-1, 1].  A NaN RSI propagates NaN
through the sum; CPython min(1.0, NaN) keeps 1.0 (the comparison NaN < 1.0
is False) and max(-1.0, 1.0) is 1.0, so the clamped score of the NaN
branch is 1.  That branch is unreachable from analyze, which has already
raised on the NaN RSI at construction. -/
noncomputable def generate_technical_score (ti : TechnicalIndicators) : ℝ :=
  match ti.rsi with
  | some r =>
      max (-1) (min 1
        ((0.30 : ℝ) * (ma_score ti : ℚ) + (0.30 : ℝ) * (rsi_score r : ℚ) +
         (0.40 : ℝ) * Real.tanh (((ti.macd - ti.macd_signal : ℚ) : ℝ) / 2)))
  | none => 1

open Classical in
/-- Direction and strength adjustment chain at the end of
TechnicalAnalyzer.analyze: exhaustion zones keep their direction with a
0.7x discount on top of the 0.8x regime multiplier, consolidation and
neutral outcomes are discounted to 0.3x. -/
noncomputable def adjustDirectionStrength (regime : String) (score : ℝ)
    (strength0 : ℝ) : String × ℝ :=
  if regime = "oversold-zone" then ("bearish", strength0 * 0.7)
  else if regime = "overbought-zone" then ("bullish", strength0 * 0.7)
  else if regime = "consolidation" then ("neutral", strength0 * 0.3)
  else if 0.2 < score then ("bullish", strength0)
  else if score < -0.2 then ("bearish", strength0)
  else ("neutral", strength0 * 0.3)

open Classical in
/-- Confidence chain at the end of TechnicalAnalyzer.analyze. -/
noncomputable def analyzeConfidence (regime : String) (score : ℝ) : ℝ :=
  let c0 : ℝ :=
    if |score| < 0.2 then 0.5
    else if 0.6 < |score| then 0.95
    else 0.8
  if regime = "bullish-trend" ∨ regime = "bearish-trend" then min 1 (c0 * 1.1)
  else if regime = "oversold-zone" ∨ regime = "overbought-zone" then
    min 1 (c0 * 1.05)
  else c0

/-- Post-construction phase of TechnicalAnalyzer.analyze: classify the
regime, compute the technical score, and mutate score, direction,
strength, confidence and regime on the already-validated record. -/
noncomputable def finalizeIndicators (price : ℚ) (ti : TechnicalIndicators) :
    TechnicalIndicators :=
  let regime := classify_regime price ti
  let dm := map_regime_to_direction regime
  let score := generate_technical_score ti
  let strength0 := |score| * dm.2
  let ds := adjustDirectionStrength regime score strength0
  { ti with
    technical_score := score
    direction := ds.1
    strength := min 1 ds.2
    confidence := analyzeConfidence regime score
    regime := regime }

/-- TechnicalAnalyzer.analyze: the 200-point guard, all component
indicators through their own guards, dataclass construction with
validation, then the regime/score/direction/strength/confidence update. -/
noncomputable def analyze (symbol : String) (l : List PricePoint) :
    Except String TechnicalIndicators :=
  if l.length < 200 then
    .error "Need at least 200 price points for complete technical analysis"
  else do
    let mas ← calculate_moving_averages l
    let rsi ← calculate_rsi l
    let mac ← calculate_macd l
    let atr := calculate_atr l 14
    let sr ← find_support_resistance l
    let ti ← mkTechnicalIndicators symbol mas.1 mas.2.1 mas.2.2 rsi
      mac.1 mac.2 sr.1 sr.2 0 atr "neutral" 0 0 "neutral"
    .ok (finalizeIndicators (currentPrice l) ti)

/-! ## Data model of the Fusion Engine (src/models.py, src/config.py) -/

/-- Sentiment analysis result, from src/models.py SentimentData.  Only the
fields read by the fusion engine are kept; the sources list is modelled by
its length, the only property the engine reads. -/
structure SentimentData where
  symbol : String
  sentiment_score : ℚ
  confidence : ℚ
  sources : ℕ
deriving DecidableEq

/-- Fundamental metrics, from src/models.py FundamentalMetrics, restricted
to the fields the fusion engine reads. -/
structure FundamentalMetrics where
  symbol : String
  pe_ratio : Option ℚ
  pb_ratio : Option ℚ
  revenue_growth : Option ℚ
  fundamental_score : ℚ
deriving DecidableEq

/-- Market context snapshot, from src/market_context_analyzer.py
MarketContext (timestamp dropped). -/
structure MarketContext where
  nifty_trend : String
  banknifty_trend : String
  vix_level : String
  market_state : String
  nifty_price : ℚ
  nifty_20dma : ℚ
  nifty_50dma : ℚ
  banknifty_price : ℚ
  banknifty_20dma : ℚ
  banknifty_50dma : ℚ
  vix_value : ℚ
  market_signal_quality : ℚ
  market_favorability : ℚ
deriving DecidableEq

/-- Analysis weights of src/config.py Configuration. -/
structure Configuration where
  sentiment_weight : ℚ
  technical_weight : ℚ
  fundamental_weight : ℚ
deriving DecidableEq

/-- Configuration.validate_weights: every weight lies in [0, 1]. -/
def validate_weights (c : Configuration) : Prop :=
  (0 ≤ c.sentiment_weight ∧ c.sentiment_weight ≤ 1) ∧
  (0 ≤ c.technical_weight ∧ c.technical_weight ≤ 1) ∧
  (0 ≤ c.fundamental_weight ∧ c.fundamental_weight ≤ 1)

instance (c : Configuration) : Decidable (validate_weights c) := by
  unfold validate_weights; infer_instance

/-- Sum of the three configured analysis weights. -/
def weightTotal (c : Configuration) : ℚ :=
  c.sentiment_weight + c.technical_weight + c.fundamental_weight

/-- Configuration.normalize_weights: all-zero weights reset to the
defaults, any other total rescales each weight by the total. -/
def normalize_weights (c : Configuration) : Configuration :=
  if weightTotal c = 0 then ⟨1/2, 3/10, 1/5⟩
  else if weightTotal c ≠ 1 then
    ⟨c.sentiment_weight / weightTotal c, c.technical_weight / weightTotal c,
     c.fundamental_weight / weightTotal c⟩
  else c

/-- RecommendationEngine.__init__: normalize the configured weights when
they are invalid or when their sum is more than 1e-3 away from 1. -/
def engineInitConfig (c : Configuration) : Configuration :=
  if ¬ validate_weights c then normalize_weights c
  else if 1/1000 < |weightTotal c - 1| then normalize_weights c
  else c

/-- Weight triple selected per call, from
RecommendationEngine._get_dynamic_weights. -/
structure FusionWeights where
  sentiment : ℚ
  technical : ℚ
  fundamental : ℚ
  sourceTag : String
deriving DecidableEq

/-- RecommendationEngine._get_dynamic_weights: fixed table keyed by the
lower-cased market state, static config weights when no context is given
or the state is unknown. -/
def get_dynamic_weights (c : Configuration) (mc : Option MarketContext) :
    FusionWeights :=
  match mc with
  | none =>
    ⟨c.sentiment_weight, c.technical_weight, c.fundamental_weight, "static"⟩
  | some ctx =>
    if ctx.market_state.toLower = "bullish" then
      ⟨3/10, 4/10, 3/10, "dynamic-bullish"⟩
    else if ctx.market_state.toLower = "neutral" then
      ⟨25/100, 35/100, 40/100, "dynamic-neutral"⟩
    else if ctx.market_state.toLower = "bearish" then
      ⟨15/100, 35/100, 50/100, "dynamic-bearish"⟩
    else if ctx.market_state.toLower = "volatile" then
      ⟨15/100, 35/100, 50/100, "dynamic-volatile"⟩
    else ⟨c.sentiment_weight, c.technical_weight, c.fundamental_weight,
          "static-fallback"⟩

/-- Sum of the three weights of a FusionWeights value. -/
def weightSum (w : FusionWeights) : ℚ :=
  w.sentiment + w.technical + w.fundamental

/-! ## Confidence calculation (RecommendationEngine.calculate_confidence) -/

open Classical in
/-- Signal direction derived from the combined score, thresholds +-0.3. -/
noncomputable def signal_direction (combined : ℝ) : String :=
  if 0.3 < combined then "bullish"
  else if combined < -0.3 then "bearish"
  else "neutral"

open Classical in
/-- Inner helper agrees_with_signal of calculate_confidence: a component
score agrees with a bullish signal above 0.2, with a bearish signal below
-0.2, and with a neutral signal inside [-0.2, 0.2]. -/
noncomputable def agrees_with_signal (score : ℝ) (direction : String) : Bool :=
  if direction = "bullish" then decide (0.2 < score)
  else if direction = "bearish" then decide (score < -0.2)
  else decide (-0.2 ≤ score) && decide (score ≤ 0.2)

/-- Market-context agreement of calculate_confidence: decided by market
state membership, not by any score. -/
def market_agrees (ctx : MarketContext) (direction : String) : Bool :=
  if direction = "bullish" then
    ctx.market_state = "bullish" || ctx.market_state = "neutral"
  else if direction = "bearish" then
    ctx.market_state = "bearish" || ctx.market_state = "neutral"
  else
    ctx.market_state = "neutral"

/-- Indicator value of a Bool, Python int(bool). -/
def bitVal (b : Bool) : ℕ := if b then 1 else 0

/-- Confidence breakdown record, from src/models.py ConfidenceBreakdown. -/
structure ConfidenceBreakdown where
  sentiment_confidence : ℚ
  technical_confidence : ℚ
  fundamental_confidence : ℚ
  market_signal_quality : ℚ
  market_favorability : ℚ
  agreement_score : ℚ
  data_quality_penalty : ℚ
deriving DecidableEq

open Classical in
/-- RecommendationEngine.calculate_confidence: agreement counting over the
three component scores plus the market state, bucketed agreement score,
per-component confidences, capped data-quality penalty, and the final
weighted confidence clamped to [0, 1].  Returns (confidence, breakdown)
with the breakdown fields rounded to two decimals as in the source. -/
noncomputable def calculate_confidence (sent : SentimentData)
    (tech : TechnicalIndicators) (fund : FundamentalMetrics)
    (combined : ℝ) (mc : Option MarketContext) : ℚ × ConfidenceBreakdown :=
  let dir := signal_direction combined
  let sA := agrees_with_signal ((sent.sentiment_score : ℚ) : ℝ) dir
  let tA := agrees_with_signal tech.technical_score dir
  let fA := agrees_with_signal ((fund.fundamental_score : ℚ) : ℝ) dir
  let agreements : ℕ :=
    bitVal sA + bitVal tA + bitVal fA +
      (match mc with
       | some ctx => bitVal (market_agrees ctx dir)
       | none => 0)
  let agreement : ℚ :=
    match mc with
    | some _ =>
      if agreements = 4 then 85/100
      else if agreements = 3 then 75/100
      else if agreements = 2 then 65/100
      else 45/100
    | none =>
      if agreements = 3 then 80/100
      else if agreements = 2 then 70/100
      else 50/100
  let sConf0 : ℚ := if 0 < sent.confidence then sent.confidence else 1/2
  let sConf : ℚ :=
    if sent.sources < 2 then sConf0 * (7/10)
    else if 5 ≤ sent.sources then min 1 (sConf0 * (11/10))
    else sConf0
  let tConf : ℚ :=
    if |tech.technical_score| < 0.2 then 1/2
    else if 0.6 < |tech.technical_score| then 95/100
    else 8/10
  let missing : ℕ :=
    bitVal (fund.pe_ratio = none) + bitVal (fund.pb_ratio = none) +
      bitVal (fund.revenue_growth = none)
  let fConf : ℚ :=
    if missing = 0 then 9/10 else if 2 ≤ missing then 1/2 else 7/10
  let msq : ℚ := match mc with | some c => c.market_signal_quality | none => 0
  let mfav : ℚ := match mc with | some c => c.market_favorability | none => 0
  let pen0 : ℚ :=
    (match mc with | some _ => 0 | none => 5/100) +
    (if sent.sources < 2 then 10/100
     else if sent.sources < 3 then 5/100 else 0) +
    (if 2 ≤ missing then 10/100 else if missing = 1 then 5/100 else 0) +
    (if sent.sentiment_score = 0 ∧ sent.sources = 0 then 15/100 else 0)
  let penalty : ℚ := min (3/10) pen0
  let conf0 : ℚ :=
    agreement * (6/10) + sConf * (15/100) + tConf * (10/100) +
      fConf * (10/100) + mfav * (5/100)
  let conf : ℚ := max 0 (min 1 (conf0 * (1 - penalty)))
  (conf,
   ⟨pyRound2 sConf, pyRound2 tConf, pyRound2 fConf, pyRound2 msq,
    pyRound2 mfav, pyRound2 agreement, pyRound2 penalty⟩)

/-! ## Price ranges and trade levels (src/recommendation_engine.py) -/

/-- Largest element of a list, Python max on a nonempty list. -/
def listMax? : List ℚ → Option ℚ
  | [] => none
  | x :: xs =>
    match listMax? xs with
    | none => some x
    | some m => some (max x m)

/-- Smallest element of a list, Python min on a nonempty list. -/
def listMin? : List ℚ → Option ℚ
  | [] => none
  | x :: xs =>
    match listMin? xs with
    | none => some x
    | some m => some (min x m)

/-- RecommendationEngine.suggest_price_range: entry range for BUY from the
nearest support below, exit range for SELL from the nearest resistance
above, with a plus-minus 2 percent default band. -/
def suggest_price_range (action : String) (price : ℚ)
    (tech : TechnicalIndicators) : ℚ × ℚ :=
  if action = "BUY" then
    match tech.support_levels with
    | [] => (price * (98/100), price * (102/100))
    | _ =>
      match listMax? (tech.support_levels.filter (fun s => decide (s < price))) with
      | some ns => (ns, price * (102/100))
      | none => (price * (98/100), price * (102/100))
  else if action = "SELL" then
    match tech.resistance_levels with
    | [] => (price * (98/100), price * (102/100))
    | _ =>
      match listMin? (tech.resistance_levels.filter (fun r => decide (price < r))) with
      | some nr => (price * (98/100), nr)
      | none => (price * (98/100), price * (102/100))
  else (price * (98/100), price * (102/100))

/-- Trade levels record, from src/models.py TradeLevels.  The source field
risk_reward_ratio is rendered here as riskReward. -/
structure TradeLevels where
  ideal_entry : ℚ
  stop_loss : ℚ
  target : ℚ
  risk_per_trade_percent : ℚ
  riskReward : ℚ
  position_size_percent : ℚ
deriving DecidableEq

/-- Decidable equality for Except values over decidable components. -/
instance exceptDecEq {e a : Type} [DecidableEq e] [DecidableEq a] :
    DecidableEq (Except e a)
  | .ok x, .ok y =>
    if h : x = y then .isTrue (by rw [h])
    else .isFalse (by intro hh; cases hh; exact h rfl)
  | .error x, .error y =>
    if h : x = y then .isTrue (by rw [h])
    else .isFalse (by intro hh; cases hh; exact h rfl)
  | .ok _, .error _ => .isFalse (by intro hh; cases hh)
  | .error _, .ok _ => .isFalse (by intro hh; cases hh)

/-- TradeLevels.__post_init__ validation of src/models.py: positive
levels, stop below entry, target above entry, risk-per-trade within
[0, 1.5] and risk-reward at least 2. -/
def mkTradeLevels (entry stop target rpt rr ps : ℚ) :
    Except String TradeLevels :=
  if entry ≤ 0 then .error "Ideal entry must be positive"
  else if stop ≤ 0 then .error "Stop loss must be positive"
  else if target ≤ 0 then .error "Target must be positive"
  else if entry ≤ stop then .error "Stop loss must be below entry for long positions"
  else if target ≤ entry then .error "Target must be above entry for long positions"
  else if ¬ (0 ≤ rpt ∧ rpt ≤ 3/2) then
    .error "Risk per trade must be between 0 and 1.5 percent"
  else if rr < 2 then .error "Risk-reward must be at least 2"
  else .ok ⟨entry, stop, target, rpt, rr, ps⟩

/-- RecommendationEngine.calculate_trade_levels for BUY: support-based
entry capped below the current price, the tighter of an ATR stop and a
support stop but never more than 8 percent below entry, a target of at
least twice the risk extended to or past the nearest resistance, the
recomputed risk-reward forced to at least 2, and position size capped at
10 percent; all levels rounded to two decimals and validated by the
TradeLevels constructor.  Non-BUY actions raise. -/
def calculate_trade_levels (price : ℚ) (tech : TechnicalIndicators)
    (action : String) : Except String TradeLevels :=
  if action ≠ "BUY" then
    .error "Trade levels currently only supported for BUY recommendations"
  else
    let entry0 : ℚ :=
      match tech.support_levels with
      | [] => price * (98/100)
      | _ =>
        match listMax? (tech.support_levels.filter (fun s => decide (s < price))) with
        | some ns => ns * (1005/1000)
        | none => price * (98/100)
    let entry := min entry0 (price * (99/100))
    let atrStop : ℚ :=
      if 0 < tech.atr then entry - tech.atr * (3/2) else entry * (95/100)
    let stop0 : ℚ :=
      match tech.support_levels with
      | [] => atrStop
      | _ =>
        match listMax? (tech.support_levels.filter (fun s => decide (s < entry))) with
        | some sb => max atrStop (sb * (995/1000))
        | none => atrStop
    let stop := max stop0 (entry * (92/100))
    let risk := entry - stop
    let target0 := entry + risk * 2
    let target1 : ℚ :=
      match tech.resistance_levels with
      | [] => target0
      | _ =>
        match listMin? (tech.resistance_levels.filter (fun r => decide (entry < r))) with
        | some nr =>
          if target0 < nr then nr * (995/1000)
          else if nr < target0 then max target0 (nr * (102/100))
          else target0
        | none => target0
    let rr0 : ℚ := if 0 < risk then (target1 - entry) / risk else 2
    let target := if rr0 < 2 then entry + risk * 2 else target1
    let rr := if rr0 < 2 then 2 else rr0
    let ps0 : ℚ := (3/2) / (risk / entry * 100)
    let ps := min ps0 10
    mkTradeLevels (pyRound2 entry) (pyRound2 stop) (pyRound2 target)
      (3/2) (pyRound2 rr) (pyRound2 ps)

/-! ## Recommendation generation (src/recommendation_engine.py) -/

open Classical in
/-- RecommendationEngine._adjust_for_market_context: volatile markets
downgrade weak BUY and SELL to HOLD, bearish markets downgrade BUY below
0.6 to HOLD. -/
noncomputable def adjust_for_market_context (action : String)
    (combined : ℝ) (ctx : MarketContext) : String :=
  if ctx.market_state = "volatile" ∧ action = "BUY" ∧ combined < 0.5 then "HOLD"
  else if ctx.market_state = "volatile" ∧ action = "SELL" ∧ -0.5 < combined then "HOLD"
  else if ctx.market_state = "bearish" ∧ action = "BUY" ∧ combined < 0.6 then "HOLD"
  else action

/-- Recommendation record, from src/models.py Recommendation.  The
reasoning prose generated by _generate_reasoning is display-only
formatting and is not modelled. -/
structure Recommendation where
  symbol : String
  action : String
  confidence : ℚ
  sentiment_contribution : ℚ
  technical_contribution : ℝ
  fundamental_contribution : ℚ
  entry_price_low : Option ℚ
  entry_price_high : Option ℚ
  exit_price_low : Option ℚ
  exit_price_high : Option ℚ
  trade_levels : Option TradeLevels
  confidence_breakdown : Option ConfidenceBreakdown
  runtime_weights : Option FusionWeights

/-- Recommendation.__post_init__ validation of src/models.py: nonempty
symbol, valid action, confidence in [0, 1], and a well-ordered entry
(resp. exit) range required exactly for BUY (resp. SELL). -/
def mkRecommendation (symbol action : String) (confidence : ℚ)
    (sContrib : ℚ) (tContrib : ℝ) (fContrib : ℚ)
    (eLo eHi xLo xHi : Option ℚ) (tl : Option TradeLevels)
    (cb : Option ConfidenceBreakdown) (rw : Option FusionWeights) :
    Except String Recommendation :=
  if symbol = "" then .error "Symbol cannot be empty"
  else if ¬ (action = "BUY" ∨ action = "SELL" ∨ action = "HOLD") then
    .error "Action must be BUY, SELL, or HOLD"
  else if ¬ (0 ≤ confidence ∧ confidence ≤ 1) then
    .error "Confidence must be between 0.0 and 1.0"
  else if action = "BUY" ∧ (eLo = none ∨ eHi = none) then
    .error "BUY recommendations must have entry price range"
  else if action = "BUY" ∧ eHi.getD 0 < eLo.getD 0 then
    .error "Entry price low cannot exceed entry price high"
  else if action = "SELL" ∧ (xLo = none ∨ xHi = none) then
    .error "SELL recommendations must have exit price range"
  else if action = "SELL" ∧ xHi.getD 0 < xLo.getD 0 then
    .error "Exit price low cannot exceed exit price high"
  else
    .ok ⟨symbol, action, confidence, sContrib, tContrib, fContrib,
         eLo, eHi, xLo, xHi, tl, cb, rw⟩

/-- Action-dependent tail of generate_recommendation: for BUY, the entry
price range and the trade levels (whose calculator may raise); for SELL
the exit price range; for HOLD neither; all fed through the validating
Recommendation constructor. -/
noncomputable def buildRecommendation (symbol : String) (conf : ℚ)
    (sContrib : ℚ) (tContrib : ℝ) (fContrib : ℚ) (price : ℚ)
    (tech : TechnicalIndicators) (cb : ConfidenceBreakdown)
    (w : FusionWeights) (action : String) : Except String Recommendation :=
  if action = "BUY" then
    match calculate_trade_levels price tech action with
    | .error e => .error e
    | .ok tl =>
      mkRecommendation symbol action conf sContrib tContrib fContrib
        (some (suggest_price_range action price tech).1)
        (some (suggest_price_range action price tech).2) none none
        (some tl) (some cb) (some w)
  else if action = "SELL" then
    mkRecommendation symbol action conf sContrib tContrib fContrib
      none none (some (suggest_price_range action price tech).1)
      (some (suggest_price_range action price tech).2) none (some cb) (some w)
  else
    mkRecommendation symbol action conf sContrib tContrib fContrib
      none none none none none (some cb) (some w)

open Classical in
/-- RecommendationEngine.generate_recommendation: dynamic weights, the
weighted combined score, thresholded action, confidence with breakdown,
market-context downgrade, and the action-dependent price ranges and trade
levels, validated by the Recommendation constructor. -/
noncomputable def generate_recommendation (cfg : Configuration)
    (sent : SentimentData) (tech : TechnicalIndicators)
    (fund : FundamentalMetrics) (price : ℚ) (mc : Option MarketContext) :
    Except String Recommendation :=
  let w := get_dynamic_weights cfg mc
  let combined : ℝ :=
    ((sent.sentiment_score * w.sentiment : ℚ) : ℝ) +
      tech.technical_score * ((w.technical : ℚ) : ℝ) +
      ((fund.fundamental_score * w.fundamental : ℚ) : ℝ)
  let action0 : String :=
    if 0.3 < combined then "BUY"
    else if combined < -0.3 then "SELL"
    else "HOLD"
  let cc := calculate_confidence sent tech fund combined mc
  let action : String :=
    match mc with
    | some ctx => adjust_for_market_context action0 combined ctx
    | none => action0
  buildRecommendation sent.symbol cc.1
    (sent.sentiment_score * w.sentiment)
    (tech.technical_score * ((w.technical : ℚ) : ℝ))
    (fund.fundamental_score * w.fundamental) price tech cc.2 w action

/-! ## Market Context Provider (src/market_context_analyzer.py) -/

/-- MarketContextAnalyzer._determine_trend: neutral on any zero input,
bullish above both moving averages, bearish below both, else neutral. -/
def determine_trend (price ma20 ma50 : ℚ) : String :=
  if price = 0 ∨ ma20 = 0 ∨ ma50 = 0 then "neutral"
  else if ma20 < price ∧ ma50 < price then "bullish"
  else if price < ma20 ∧ price < ma50 then "bearish"
  else "neutral"

/-- MarketContextAnalyzer._determine_vix_level with the fixed thresholds
15 / 20 / 25. -/
def determine_vix_level (vix : ℚ) : String :=
  if vix < 15 then "low"
  else if vix < 20 then "moderate"
  else if vix < 25 then "high"
  else "very_high"

/-- MarketContextAnalyzer._determine_market_state: elevated VIX overrides
trend; both indices bullish gives bullish, both bearish gives bearish,
anything else neutral. -/
def determine_market_state (niftyTrend bankTrend vixLevel : String) : String :=
  if vixLevel = "high" ∨ vixLevel = "very_high" then "volatile"
  else if niftyTrend = "bullish" ∧ bankTrend = "bullish" then "bullish"
  else if niftyTrend = "bearish" ∧ bankTrend = "bearish" then "bearish"
  else "neutral"

/-- Base favorability from the market state (60 percent weight). -/
def favBase (marketState : String) : ℚ :=
  if marketState = "bullish" then 85/100
  else if marketState = "neutral" then 55/100
  else if marketState = "bearish" then 30/100
  else 35/100

/-- Favorability contribution of the VIX bucket (25 percent weight). -/
def favVixScore (vixLevel : String) : ℚ :=
  if vixLevel = "low" then 9/10
  else if vixLevel = "moderate" then 7/10
  else if vixLevel = "high" then 4/10
  else 2/10

/-- Favorability contribution of index breadth (15 percent weight). -/
def favBreadth (niftyTrend bankTrend : String) : ℚ :=
  if niftyTrend = "bullish" ∧ bankTrend = "bullish" then 1
  else if niftyTrend = "bearish" ∧ bankTrend = "bearish" then 2/10
  else 5/10

/-- Bearish hard ceiling of 0.40 on favorability. -/
def favBearishCap (marketState : String) (x : ℚ) : ℚ :=
  if marketState = "bearish" then min x (40/100) else x

/-- Very-high-VIX hard ceiling of 0.25 on favorability. -/
def favVeryHighCap (vixLevel : String) (x : ℚ) : ℚ :=
  if vixLevel = "very_high" then min x (25/100) else x

/-- Bullish hard floor of 0.70 on favorability. -/
def favBullishFloor (marketState : String) (x : ℚ) : ℚ :=
  if marketState = "bullish" then max x (70/100) else x

/-- MarketContextAnalyzer._calculate_favorability: 60 percent from the
market state, 25 percent from the VIX bucket, 15 percent from breadth,
then the bearish 0.40 ceiling, the very-high-VIX 0.25 ceiling and the
bullish 0.70 floor, clamped to [0, 1]. -/
def calculate_favorability (marketState vixLevel niftyTrend bankTrend : String) : ℚ :=
  min 1 (max 0
    (favBullishFloor marketState
      (favVeryHighCap vixLevel
        (favBearishCap marketState
          (favBase marketState * (6/10) + favVixScore vixLevel * (25/100) +
           favBreadth niftyTrend bankTrend * (15/100))))))

/-! ## No-Trade Gate (src/no_trade_detector.py) -/

/-- No-trade signal record, from src/no_trade_detector.py NoTradeSignal. -/
structure NoTradeSignal where
  is_no_trade : Bool
  reasons : List String
  suggested_action : String
  severity : String
deriving DecidableEq

/-- Severity upgrade used by checks 2, 4 and 5: a low severity becomes
medium, anything else is kept. -/
def sevBump (s : String) : String := if s = "low" then "medium" else s

/-- Check 1: bearish market with elevated VIX forces severity high. -/
def check1 (ctx : MarketContext) : List String × String :=
  if ctx.market_state = "bearish" ∧
     (ctx.vix_level = "high" ∨ ctx.vix_level = "very_high") then
    (["Market is bearish with elevated volatility"], "high")
  else ([], "low")

/-- Check 2: Nifty more than the drop threshold below its 50-day moving
average raises severity to at least medium. -/
def check2 (dropThr : ℚ) (ctx : MarketContext) (acc : List String × String) :
    List String × String :=
  if (ctx.nifty_price - ctx.nifty_50dma) / ctx.nifty_50dma < -dropThr then
    (acc.1 ++ ["Nifty 50 is significantly below its 50-day moving average"],
     sevBump acc.2)
  else acc

/-- Check 3: a VIX value above the spike threshold forces severity high. -/
def check3 (vixThr : ℚ) (ctx : MarketContext) (acc : List String × String) :
    List String × String :=
  if vixThr < ctx.vix_value then
    (acc.1 ++ ["VIX spike detected - extreme market fear"], "high")
  else acc

/-- Check 4: both indices bearish with at least moderate VIX raises
severity to at least medium. -/
def check4 (ctx : MarketContext) (acc : List String × String) :
    List String × String :=
  if ctx.nifty_trend = "bearish" ∧ ctx.banknifty_trend = "bearish" ∧
     (ctx.vix_level = "moderate" ∨ ctx.vix_level = "high" ∨
      ctx.vix_level = "very_high") then
    (acc.1 ++ ["Both Nifty 50 and Bank Nifty are bearish with elevated volatility"],
     sevBump acc.2)
  else acc

/-- Check 5: a volatile market state with VIX above 20 raises severity to
at least medium. -/
def check5 (ctx : MarketContext) (acc : List String × String) :
    List String × String :=
  if ctx.market_state = "volatile" ∧ 20 < ctx.vix_value then
    (acc.1 ++ ["Market is highly volatile"], sevBump acc.2)
  else acc

/-- Sequential severity/reason accumulation of
NoTradeDetector.check_market_conditions: each fired check appends its
reason; checks 1 and 3 force severity high, checks 2, 4 and 5 raise a low
severity to medium.  The interpolated numbers of the Python reason strings
are not modelled. -/
def noTradeChecks (vixThr dropThr : ℚ) (ctx : MarketContext) :
    List String × String :=
  check5 ctx (check4 ctx (check3 vixThr ctx (check2 dropThr ctx (check1 ctx))))

/-- NoTradeDetector.check_market_conditions with explicit detector
parameters (defaults vix_spike_threshold = 25, nifty_drop_threshold =
0.03, enable_no_trade = true).  A zero nifty_50dma makes the Python code
raise ZeroDivisionError inside check 2, modelled as an error. -/
def check_market_conditions (enabled : Bool) (vixThr dropThr : ℚ)
    (mc : Option MarketContext) : Except String NoTradeSignal :=
  if enabled = false then
    .ok ⟨false, [], "Trading enabled", "low"⟩
  else
    match mc with
    | none =>
      .ok ⟨false, ["No market context available"], "Proceed with caution", "low"⟩
    | some ctx =>
      if ctx.nifty_50dma = 0 then .error "float division by zero"
      else
        let rs := noTradeChecks vixThr dropThr ctx
        let blocked := decide (rs.1 ≠ []) &&
          (rs.2 = "high" || rs.2 = "medium")
        let act : String :=
          if blocked then
            if rs.2 = "high" then
              "Stay in cash. Avoid all new positions."
            else
              "Exercise extreme caution. Only high-conviction trades with tight stops."
          else "Market conditions allow trading, but remain vigilant"
        .ok ⟨blocked, rs.1, act, rs.2⟩

/-! ## Raw indicator bundle and auxiliary predicates -/

/-- Support/resistance pair produced by find_support_resistance on the
guarded domain (at least 20 points). -/
def srPair (l : List PricePoint) : List ℚ × List ℚ :=
  ((find_support_resistance l).toOption).getD ([], [])

/-- Indicator record as constructed inside analyze, before the
regime/score/direction update: raw indicator values, placeholder score 0,
defaults for direction, strength, confidence and regime. -/
def rawIndicators (s : String) (l : List PricePoint) : TechnicalIndicators :=
  ⟨s, lastMean 20 (closes l), lastMean 50 (closes l), lastMean 200 (closes l),
   rsiVal l, (macdSeries l).getLast?.getD 0, (signalSeries l).getLast?.getD 0,
   (srPair l).1, (srPair l).2, 0, calculate_atr l 14, "neutral", 0, 0,
   "neutral"⟩

/-- The last fourteen day-over-day price changes are all zero, i.e. the
last fifteen closes are identical.  Exactly in this case both the average
gain and the average loss of the RSI window vanish and the pandas RSI is
NaN. -/
def lastChangesAllZero (l : List PricePoint) : Prop :=
  ∀ d ∈ (priceDiffs l).drop ((priceDiffs l).length - 14), d = 0

instance (l : List PricePoint) : Decidable (lastChangesAllZero l) := by
  unfold lastChangesAllZero; infer_instance

/-- Inert default indicator record used only as a getD fallback. -/
def emptyTI : TechnicalIndicators :=
  ⟨"-", 0, 0, 0, none, 0, 0, [], [], 0, 0, "neutral", 0, 0, "neutral"⟩

/-! ## Concrete inputs used by counterexamples and witnesses -/

/-- Flat price point at 100. -/
def pt100 : PricePoint := ⟨100, 100, 100, 100, 0⟩

/-- Flat price point at 60. -/
def pt60 : PricePoint := ⟨60, 60, 60, 60, 0⟩

/-- 200 days of a perfectly constant price: a well-formed history on which
the pandas RSI is NaN. -/
def constHist : List PricePoint := List.replicate 200 pt100

/-- 199 constant days followed by a single hard drop to 60: a well-formed
history that analyze classifies as oversold-zone. -/
def mixedHist : List PricePoint := List.replicate 199 pt100 ++ [pt60]

/-- Indicator output of analyze on mixedHist. -/
noncomputable def mixedTI : TechnicalIndicators :=
  finalizeIndicators (currentPrice mixedHist) (rawIndicators "X" mixedHist)

/-- Indicator output of analyze on mixedHist, extracted through the Except
wrapper. -/
noncomputable def oversoldTI : TechnicalIndicators :=
  ((analyze "X" mixedHist).toOption).getD emptyTI

/-- Technical indicator input of the worked trade-level example of the
specification: ma20 = 105, ma50 = 100, ma200 = 95, rsi = 45, macd = 1,
signal = 0.5, support [90], resistance [110], atr = 2. -/
def ti5 : TechnicalIndicators :=
  ⟨"Y", 105, 100, 95, some 45, 1, 1/2, [90], [110], 0, 2, "neutral", 0, 0,
   "neutral"⟩

/-- Trade levels computed on the worked example. -/
def tl5 : TradeLevels :=
  ((calculate_trade_levels 100 ti5 "BUY").toOption).getD ⟨1, 1, 2, 1, 2, 1⟩

/-- Ten flat points: fewer than the period+1 = 15 points ATR needs. -/
def shortHist : List PricePoint := List.replicate 10 pt100

/-- Market context that is bullish with low VIX but has the Nifty 10
percent below its 50-day moving average. -/
def ctxBullDrop : MarketContext :=
  ⟨"bullish", "bullish", "low", "bullish", 90, 100, 100, 100, 100, 100, 10,
   7/10, 8/10⟩

/-- Market context that is bearish with very high VIX. -/
def ctxBearVH : MarketContext :=
  ⟨"bearish", "bearish", "very_high", "bearish", 100, 100, 100, 100, 100,
   100, 30, 7/10, 2/10⟩

/-- Market context that is bullish with low VIX and a healthy Nifty. -/
def ctxBullLow : MarketContext :=
  ⟨"bullish", "bullish", "low", "bullish", 100, 98, 97, 100, 98, 97, 10,
   7/10, 8/10⟩

/-- Market context in the neutral state. -/
def ctxNeutral : MarketContext :=
  ⟨"neutral", "neutral", "low", "neutral", 100, 100, 100, 100, 100, 100, 10,
   7/10, 55/100⟩

/-- Static default configuration of src/config.py. -/
def cfg0 : Configuration := ⟨1/2, 3/10, 1/5⟩

/-- Degenerate sentiment input: zero score, zero confidence, no sources. -/
def sent0 : SentimentData := ⟨"S", 0, 0, 0⟩

/-- Neutral technical input with zero technical score. -/
def tech0 : TechnicalIndicators :=
  ⟨"S", 100, 100, 100, some 50, 0, 0, [], [], 0, 0, "neutral", 0, 0,
   "neutral"⟩

/-- Fundamental input with every optional ratio missing. -/
def fund0 : FundamentalMetrics := ⟨"S", none, none, none, 0⟩

/-- Confidence breakdown produced on the degenerate inputs. -/
def cb0 : ConfidenceBreakdown := ⟨35/100, 1/2, 1/2, 0, 0, 8/10, 3/10⟩

/-- Recommendation produced on the degenerate inputs: a HOLD with no
price ranges and no trade levels. -/
def rec0 : Recommendation :=
  ⟨"S", "HOLD", 1771/4000, 0, 0, 0, none, none, none, none, none,
   some cb0, some ⟨1/2, 3/10, 1/5, "static"⟩⟩

/-! ## Spec-side definitions (used to state refinement claims) -/

open Classical in
/-- Modelled from the spec wording of the agreement rule: a component
score agrees with the fused direction exactly when it falls on the same
side of the plus-minus 0.2 band as the combined score. -/
noncomputable def claimBandAgrees (score : ℝ) (direction : String) : Prop :=
  if direction = "bullish" then 0.2 < score
  else if direction = "bearish" then score < -0.2
  else -0.2 ≤ score ∧ score ≤ 0.2

/-- State-membership agreement rule actually implemented for the market
voter: a neutral market agrees with every direction, a bullish market
additionally with bullish, a bearish market additionally with bearish. -/
def claimMarketAgrees (state direction : String) : Prop :=
  if direction = "bullish" then state = "bullish" ∨ state = "neutral"
  else if direction = "bearish" then state = "bearish" ∨ state = "neutral"
  else state = "neutral"

open Classical in
/-- Indicator value of a proposition. -/
noncomputable def claimInd (p : Prop) : ℕ := if p then 1 else 0

open Classical in
/-- Number of agreeing voters under the band rule for the three component
scores and the state rule for the market voter. -/
noncomputable def claimAgreeCount (sent : SentimentData)
    (tech : TechnicalIndicators) (fund : FundamentalMetrics)
    (mc : Option MarketContext) (direction : String) : ℕ :=
  claimInd (claimBandAgrees ((sent.sentiment_score : ℚ) : ℝ) direction) +
  claimInd (claimBandAgrees tech.technical_score direction) +
  claimInd (claimBandAgrees ((fund.fundamental_score : ℚ) : ℝ) direction) +
  (match mc with
   | some ctx => claimInd (claimMarketAgrees ctx.market_state direction)
   | none => 0)

/-- Agreement bucket table of the spec: with a market context 4/4 gives
0.85, 3/4 gives 0.75, 2/4 gives 0.65, fewer 0.45; without it 3/3 gives
0.80, 2/3 gives 0.70, fewer 0.50. -/
def agreementBase (hasMc : Bool) (n : ℕ) : ℚ :=
  if hasMc then
    if n = 4 then 85/100
    else if n = 3 then 75/100
    else if n = 2 then 65/100
    else 45/100
  else
    if n = 3 then 80/100
    else if n = 2 then 70/100
    else 50/100

/-! ## Helper lemmas about the Indicator Engine -/

theorem gainsOf_nonneg (l : List PricePoint) : ∀ x ∈ gainsOf l, 0 ≤ x := by
  intro x hx
  obtain ⟨d, _, rfl⟩ := List.mem_map.mp hx
  by_cases h : 0 < d <;> simp [h] <;> linarith

theorem lossesOf_nonneg (l : List PricePoint) : ∀ x ∈ lossesOf l, 0 ≤ x := by
  intro x hx
  obtain ⟨d, _, rfl⟩ := List.mem_map.mp hx
  by_cases h : d < 0 <;> simp [h] <;> linarith

theorem avgGain_nonneg (l : List PricePoint) : 0 ≤ avgGain l := by
  unfold avgGain lastMean
  apply div_nonneg _ (by positivity)
  exact List.sum_nonneg fun x hx => gainsOf_nonneg l x (List.mem_of_mem_drop hx)

theorem avgLoss_nonneg (l : List PricePoint) : 0 ≤ avgLoss l := by
  unfold avgLoss lastMean
  apply div_nonneg _ (by positivity)
  exact List.sum_nonneg fun x hx => lossesOf_nonneg l x (List.mem_of_mem_drop hx)

theorem rsiVal_bounds (l : List PricePoint) (h : ¬ lastChangesAllZero l) :
    ∃ r, rsiVal l = some r ∧ 0 ≤ r ∧ r ≤ 100 := by
  unfold rsiVal
  by_cases hL : 0 < avgLoss l
  · rw [if_pos hL]
    set rs : ℚ := avgGain l / avgLoss l with hrs
    have hrs0 : 0 ≤ rs := div_nonneg (avgGain_nonneg l) (le_of_lt hL)
    have hden : (0:ℚ) < 1 + rs := by linarith
    have hq0 : 0 < 100 / (1 + rs) := by positivity
    have hq100 : 100 / (1 + rs) ≤ 100 := by
      rw [div_le_iff hden]; nlinarith
    exact ⟨_, rfl, by linarith, by linarith⟩
  · rw [if_neg hL]
    by_cases hG : 0 < avgGain l
    · rw [if_pos hG]
      exact ⟨100, rfl, by norm_num, by norm_num⟩
    · exfalso
      apply h
      have hL0 : avgLoss l = 0 := le_antisymm (not_lt.mp hL) (avgLoss_nonneg l)
      have hG0 : avgGain l = 0 := le_antisymm (not_lt.mp hG) (avgGain_nonneg l)
      have hLsum : ((lossesOf l).drop ((lossesOf l).length - 14)).sum = 0 := by
        have := hL0
        unfold avgLoss lastMean at this
        rcases div_eq_zero_iff.mp this with h1 | h1
        · exact h1
        · norm_num at h1
      have hGsum : ((gainsOf l).drop ((gainsOf l).length - 14)).sum = 0 := by
        have := hG0
        unfold avgGain lastMean at this
        rcases div_eq_zero_iff.mp this with h1 | h1
        · exact h1
        · norm_num at h1
      intro d hd
      have hlen : (gainsOf l).length = (priceDiffs l).length := by
        unfold gainsOf; simp
      have hlen2 : (lossesOf l).length = (priceDiffs l).length := by
        unfold lossesOf; simp
      have hg : (if 0 < d then d else 0) = 0 := by
        refine List.all_zero_of_le_zero_le_of_sum_eq_zero
          (fun x hx => gainsOf_nonneg l x (List.mem_of_mem_drop hx)) hGsum ?_
        rw [hlen]
        unfold gainsOf
        rw [← List.map_drop]
        exact List.mem_map.mpr ⟨d, hd, rfl⟩
      have hl2 : (if d < 0 then -d else 0) = 0 := by
        refine List.all_zero_of_le_zero_le_of_sum_eq_zero
          (fun x hx => lossesOf_nonneg l x (List.mem_of_mem_drop hx)) hLsum ?_
        rw [hlen2]
        unfold lossesOf
        rw [← List.map_drop]
        exact List.mem_map.mpr ⟨d, hd, rfl⟩
      by_cases h1 : 0 < d
      · rw [if_pos h1] at hg; exact hg
      · by_cases h2 : d < 0
        · rw [if_pos h2] at hl2; linarith [hl2]
        · linarith [not_lt.mp h1, not_lt.mp h2]

theorem cma_eq (l : List PricePoint) (h : 200 ≤ l.length) :
    calculate_moving_averages l =
      .ok (lastMean 20 (closes l), lastMean 50 (closes l),
           lastMean 200 (closes l)) := by
  unfold calculate_moving_averages
  rw [if_neg (by omega)]
  simp only [if_pos (show 50 ≤ l.length by omega),
             if_pos (show 200 ≤ l.length by omega)]

theorem crsi_eq (l : List PricePoint) (h : 200 ≤ l.length) :
    calculate_rsi l = .ok (rsiVal l) := by
  unfold calculate_rsi
  rw [if_neg (by omega)]

theorem cmacd_eq (l : List PricePoint) (h : 200 ≤ l.length) :
    calculate_macd l =
      .ok ((macdSeries l).getLast?.getD 0, (signalSeries l).getLast?.getD 0) := by
  unfold calculate_macd
  rw [if_neg (by omega)]

theorem csr_eq (l : List PricePoint) (h : 200 ≤ l.length) :
    find_support_resistance l = .ok (srPair l) := by
  have h20 : ¬ (l.length < 20) := by omega
  unfold srPair find_support_resistance
  rw [if_neg h20]
  simp [Except.toOption]

theorem mkTI_ok (s : String) (hs : s ≠ "") (ma20 ma50 ma200 : ℚ) (r : ℚ)
    (h0 : 0 ≤ r) (h100 : r ≤ 100) (macd sig : ℚ) (sup res : List ℚ)
    (atr : ℚ) :
    mkTechnicalIndicators s ma20 ma50 ma200 (some r) macd sig sup res 0 atr
      "neutral" 0 0 "neutral" =
    .ok ⟨s, ma20, ma50, ma200, some r, macd, sig, sup, res, 0, atr,
         "neutral", 0, 0, "neutral"⟩ := by
  unfold mkTechnicalIndicators
  rw [if_neg hs,
      if_neg (by simp [pyBetween, h0, h100]),
      if_neg (by norm_num),
      if_neg (by simp),
      if_neg (by norm_num),
      if_neg (by norm_num),
      if_neg (by simp)]

theorem analyze_ok_of (s : String) (l : List PricePoint) (hs : s ≠ "")
    (h200 : 200 ≤ l.length) (r : ℚ) (hr : rsiVal l = some r) (h0 : 0 ≤ r)
    (h100 : r ≤ 100) :
    analyze s l =
      .ok (finalizeIndicators (currentPrice l) (rawIndicators s l)) := by
  unfold analyze
  rw [if_neg (by omega)]
  rw [cma_eq l h200, crsi_eq l h200, cmacd_eq l h200, csr_eq l h200]
  simp only [bind, Except.bind]
  rw [hr, mkTI_ok s hs _ _ _ r h0 h100 _ _ _ _]
  unfold rawIndicators
  rw [hr]

theorem analyze_ok_inv (s : String) (l : List PricePoint)
    (ti : TechnicalIndicators) (h : analyze s l = .ok ti) :
    ti = finalizeIndicators (currentPrice l) (rawIndicators s l) := by
  unfold analyze at h
  by_cases h200 : l.length < 200
  · rw [if_pos h200] at h; cases h
  · rw [if_neg h200] at h
    have h200' : 200 ≤ l.length := by omega
    rw [cma_eq l h200', crsi_eq l h200', cmacd_eq l h200', csr_eq l h200'] at h
    simp only [bind, Except.bind] at h
    unfold mkTechnicalIndicators at h
    split_ifs at h <;> cases h
    unfold rawIndicators
    rfl

/-! ## Bounds on the hyperbolic tangent used by the MACD score -/

theorem tanh_exp_form (x : ℝ) :
    Real.tanh x = (Real.exp (2*x) - 1) / (Real.exp (2*x) + 1) := by
  rw [Real.tanh_eq_sinh_div_cosh, Real.sinh_eq, Real.cosh_eq, Real.exp_neg,
      two_mul, Real.exp_add]
  have h3 : Real.exp x ≠ 0 := (Real.exp_pos x).ne'
  have h6 : Real.exp x * Real.exp x + 1 ≠ 0 := by positivity
  have h5 : Real.exp x + (Real.exp x)⁻¹ ≠ 0 := by positivity
  field_simp

theorem exp_two_gt_seven : (7:ℝ) < Real.exp 2 := by
  have he1 : (2.7182818283 : ℝ) < Real.exp 1 := Real.exp_one_gt_d9
  have h : Real.exp 2 = Real.exp 1 * Real.exp 1 := by
    rw [← Real.exp_add]; norm_num
  nlinarith

theorem tau_lb : (3/4 : ℝ) ≤ Real.tanh (448/351) := by
  rw [tanh_exp_form]
  have hE : (7:ℝ) ≤ Real.exp (2*(448/351)) := by
    have h2 : Real.exp 2 ≤ Real.exp (2*(448/351)) :=
      Real.exp_le_exp.mpr (by norm_num)
    linarith [exp_two_gt_seven]
  rw [le_div_iff₀ (by positivity)]
  linarith

theorem tau_ub : Real.tanh (448/351) ≤ 1 := by
  rw [tanh_exp_form]
  rw [div_le_one (by positivity)]
  linarith [Real.exp_pos (2*(448/351 : ℝ))]

theorem tau_pos : (0:ℝ) < Real.tanh (448/351) :=
  lt_of_lt_of_le (by norm_num) tau_lb

/-! ## Concrete evaluation of analyze on the oversold history -/

theorem mixedHist_len : (200:ℕ) ≤ mixedHist.length := by decide!

/-- Strength rule of finalizeIndicators in the oversold regime: the 0.8
regime multiplier combines with the 0.7 exhaustion discount into 0.56. -/
theorem strength_oversold (price : ℚ) (raw : TechnicalIndicators)
    (h : classify_regime price raw = "oversold-zone") :
    (finalizeIndicators price raw).strength =
      min 1 ((0.56:ℝ) * |generate_technical_score raw|) := by
  unfold finalizeIndicators
  rw [h]
  simp +decide [adjustDirectionStrength, map_regime_to_direction]
  congr 1
  ring

/-- Strength rule of finalizeIndicators in the overbought regime. -/
theorem strength_overbought (price : ℚ) (raw : TechnicalIndicators)
    (h : classify_regime price raw = "overbought-zone") :
    (finalizeIndicators price raw).strength =
      min 1 ((0.56:ℝ) * |generate_technical_score raw|) := by
  unfold finalizeIndicators
  rw [h]
  simp +decide [adjustDirectionStrength, map_regime_to_direction]
  congr 1
  ring

/-- Strength rule of finalizeIndicators in the consolidation regime: the
0.5 regime multiplier combines with the 0.3 neutral discount into 0.15. -/
theorem strength_consolidation (price : ℚ) (raw : TechnicalIndicators)
    (h : classify_regime price raw = "consolidation") :
    (finalizeIndicators price raw).strength =
      min 1 ((0.15:ℝ) * |generate_technical_score raw|) := by
  unfold finalizeIndicators
  rw [h]
  simp +decide [adjustDirectionStrength, map_regime_to_direction]
  congr 1
  ring

/-- Strength rule of finalizeIndicators for a neutral outcome inside a
trend regime: multiplier 1 with the 0.3 neutral discount. -/
theorem strength_neutralband (price : ℚ) (raw : TechnicalIndicators)
    (h : classify_regime price raw = "bullish-trend" ∨
         classify_regime price raw = "bearish-trend")
    (hb1 : ¬ ((0.2:ℝ) < generate_technical_score raw))
    (hb2 : ¬ (generate_technical_score raw < -(0.2:ℝ))) :
    (finalizeIndicators price raw).strength =
      min 1 ((0.3:ℝ) * |generate_technical_score raw|) := by
  unfold finalizeIndicators
  rcases h with h | h <;>
  · rw [h]
    simp +decide [adjustDirectionStrength, map_regime_to_direction]
    rw [if_neg hb1, if_neg hb2]
    congr 1
    ring

/-- classify_regime only produces the five regime labels. -/
theorem classify_regime_cases (price : ℚ) (ti : TechnicalIndicators) :
    classify_regime price ti = "oversold-zone" ∨
    classify_regime price ti = "overbought-zone" ∨
    classify_regime price ti = "bullish-trend" ∨
    classify_regime price ti = "bearish-trend" ∨
    classify_regime price ti = "consolidation" := by
  unfold classify_regime
  split_ifs <;> simp

theorem mixedHist_rsi : rsiVal mixedHist = some 0 := by decide!

theorem mixedRaw_ma : ma_score (rawIndicators "X" mixedHist) = -1 := by decide!

theorem mixedRaw_macd :
    (rawIndicators "X" mixedHist).macd -
      (rawIndicators "X" mixedHist).macd_signal = -896/351 := by decide!

theorem mixedRaw_regime :
    classify_regime (currentPrice mixedHist) (rawIndicators "X" mixedHist) =
      "oversold-zone" := by decide!

theorem analyze_mixedHist : analyze "X" mixedHist = .ok mixedTI :=
  analyze_ok_of "X" mixedHist (by decide) mixedHist_len 0 mixedHist_rsi
    le_rfl (by norm_num)

theorem mixedRaw_score :
    generate_technical_score (rawIndicators "X" mixedHist) =
      -(2/5 : ℝ) * Real.tanh (448/351) := by
  unfold generate_technical_score
  rw [show (rawIndicators "X" mixedHist).rsi = some 0 from mixedHist_rsi]
  dsimp only
  rw [mixedRaw_ma, show rsi_score 0 = 1 from by norm_num [rsi_score]]
  rw [mixedRaw_macd]
  have harg : (((-896/351 : ℚ) : ℝ))/2 = -(448/351 : ℝ) := by push_cast; ring
  rw [harg, Real.tanh_neg]
  have h1 : (0.30:ℝ)*((-1:ℚ):ℝ) + (0.30:ℝ)*((1:ℚ):ℝ) +
      (0.40:ℝ)*(-(Real.tanh (448/351))) = -(2/5)*Real.tanh (448/351) := by
    push_cast; ring
  rw [h1]
  rw [min_eq_right (by linarith [tau_pos] : -(2/5 : ℝ)*Real.tanh (448/351) ≤ 1)]
  rw [max_eq_right (by linarith [tau_ub] : (-1:ℝ) ≤ -(2/5)*Real.tanh (448/351))]

theorem mixedTI_regime : mixedTI.regime = "oversold-zone" := by
  unfold mixedTI finalizeIndicators
  exact mixedRaw_regime

theorem mixedTI_score :
    mixedTI.technical_score = -(2/5 : ℝ) * Real.tanh (448/351) := by
  unfold mixedTI finalizeIndicators
  exact mixedRaw_score

theorem mixedTI_strength :
    mixedTI.strength = (28/125 : ℝ) * Real.tanh (448/351) := by
  have h := strength_oversold (currentPrice mixedHist)
    (rawIndicators "X" mixedHist) mixedRaw_regime
  unfold mixedTI
  rw [h, mixedRaw_score]
  rw [abs_of_nonpos (by linarith [tau_pos] : -(2/5 : ℝ)*Real.tanh (448/351) ≤ 0)]
  have hle : (0.56:ℝ) * -(-(2/5) * Real.tanh (448/351)) ≤ 1 := by
    nlinarith [tau_ub, tau_pos]
  rw [min_eq_right hle]
  ring

/-! ## Claim C1 -/

/-- C1 counterexample: on a well-formed chronological history of 200
identical points the pandas RSI is NaN (average gain and loss both
vanish), so analyze does not return an indicator set at all: the
TechnicalIndicators constructor raises the RSI range ValueError.  This
refutes the claim that analyze returns rsi in [0,100] for every
well-formed history of at least 200 points. -/
theorem c1_counterexample :
    analyze "X" constHist = .error "RSI must be between 0 and 100" := by
  have h200 : (200:ℕ) ≤ constHist.length := by decide!
  unfold analyze
  rw [if_neg (by omega)]
  rw [cma_eq _ h200, crsi_eq _ h200, cmacd_eq _ h200, csr_eq _ h200]
  simp only [bind, Except.bind]
  rw [show rsiVal constHist = none from by decide!]
  unfold mkTechnicalIndicators
  rw [if_neg (by decide)]
  rw [if_pos (by decide : ¬ (pyBetween 0 none 100 = true))]

/-- C1 (corrected): for every chronological history of at least 200
well-formed, strictly positive points whose last fourteen price changes
are not all zero, analyze succeeds and returns an indicator set whose rsi
lies in [0, 100] and whose technicalScore lies in [-1, 1]; for every
history with fewer than 20 points it fails with the insufficient-data
error. -/
theorem c1_theorem (s : String) (l l2 : List PricePoint) (hs : s ≠ "")
    (h200 : 200 ≤ l.length)
    (hwf : ∀ p ∈ l, p.wf ∧ 0 < p.lowPrice)
    (hch : ¬ lastChangesAllZero l)
    (hshort : l2.length < 20) :
    (∃ ti, analyze s l = .ok ti ∧
       (∃ r, ti.rsi = some r ∧ 0 ≤ r ∧ r ≤ 100) ∧
       -1 ≤ ti.technical_score ∧ ti.technical_score ≤ 1) ∧
    analyze s l2 =
      .error "Need at least 200 price points for complete technical analysis" := by
  obtain ⟨r, hr, h0, h100⟩ := rsiVal_bounds l hch
  constructor
  · refine ⟨_, analyze_ok_of s l hs h200 r hr h0 h100, ⟨r, hr, h0, h100⟩, ?_, ?_⟩
    · show -1 ≤ generate_technical_score (rawIndicators s l)
      unfold generate_technical_score
      rw [show (rawIndicators s l).rsi = some r from hr]
      exact le_max_left _ _
    · show generate_technical_score (rawIndicators s l) ≤ 1
      unfold generate_technical_score
      rw [show (rawIndicators s l).rsi = some r from hr]
      exact max_le (by norm_num) (min_le_left _ _)
  · unfold analyze
    rw [if_pos (by omega)]

/-- C1 witness: the corrected claim instantiated on a concrete
200-point history ending in a drop, and the empty history for the
insufficient-data half. -/
theorem c1_witness :
    (("X" : String) ≠ "" ∧ 200 ≤ mixedHist.length ∧
     (∀ p ∈ mixedHist, p.wf ∧ 0 < p.lowPrice) ∧
     ¬ lastChangesAllZero mixedHist ∧
     ([] : List PricePoint).length < 20) ∧
    ((∃ ti, analyze "X" mixedHist = .ok ti ∧
        (∃ r, ti.rsi = some r ∧ 0 ≤ r ∧ r ≤ 100) ∧
        -1 ≤ ti.technical_score ∧ ti.technical_score ≤ 1) ∧
     analyze "X" [] =
       .error "Need at least 200 price points for complete technical analysis") :=
  ⟨⟨by decide, by decide!, by decide!, by decide!, by decide⟩,
   c1_theorem "X" mixedHist [] (by decide) (by decide!) (by decide!)
     (by decide!) (by decide)⟩

/-! ## Claim C6 -/

/-- C6 (corrected): for indicator sets returned by analyze, the strength
in the oversold/overbought exhaustion regimes is 0.56 times the base
strength |technicalScore| (the 0.8 regime multiplier times the 0.7
exhaustion discount), in consolidation it is 0.15 times the base strength
(0.5 times 0.3), and for a neutral outcome inside a trend regime it is
0.3 times the base strength; all capped at 1. -/
theorem c6_theorem (s : String) (l : List PricePoint)
    (ti : TechnicalIndicators) (h : analyze s l = .ok ti) :
    ((ti.regime = "oversold-zone" ∨ ti.regime = "overbought-zone") →
       ti.strength = min 1 ((0.56:ℝ) * |ti.technical_score|)) ∧
    (ti.regime = "consolidation" →
       ti.strength = min 1 ((0.15:ℝ) * |ti.technical_score|)) ∧
    ((ti.regime = "bullish-trend" ∨ ti.regime = "bearish-trend") →
       -0.2 ≤ ti.technical_score → ti.technical_score ≤ 0.2 →
       ti.strength = min 1 ((0.3:ℝ) * |ti.technical_score|)) := by
  have hti := analyze_ok_inv s l ti h
  subst hti
  refine ⟨?_, ?_, ?_⟩
  · rintro (h1 | h1)
    · exact strength_oversold _ _ h1
    · exact strength_overbought _ _ h1
  · intro h1
    exact strength_consolidation _ _ h1
  · intro h1 hb1 hb2
    exact strength_neutralband _ _ h1 (not_lt.mpr hb2) (not_lt.mpr hb1)

/-- C6 counterexample: on the concrete oversold history the strength
returned by analyze is 0.224 times tanh(448/351) while 0.7 times the base
strength would be 0.28 times tanh(448/351); the claimed 0.7 factor is
wrong because the 0.8 regime multiplier is applied first. -/
theorem c6_counterexample :
    analyze "X" mixedHist = .ok oversoldTI ∧
    oversoldTI.regime = "oversold-zone" ∧
    oversoldTI.strength ≠ (0.7:ℝ) * |oversoldTI.technical_score| := by
  have hov : oversoldTI = mixedTI := by
    unfold oversoldTI
    rw [analyze_mixedHist]
    rfl
  refine ⟨by rw [hov]; exact analyze_mixedHist,
          by rw [hov]; exact mixedTI_regime, ?_⟩
  rw [hov, mixedTI_strength, mixedTI_score]
  intro hcontra
  rw [abs_of_nonpos (by linarith [tau_pos])] at hcontra
  nlinarith [tau_lb]

/-- C6 witness: the corrected claim applied to the concrete oversold
history. -/
theorem c6_witness :
    mixedTI.regime = "oversold-zone" ∧
    mixedTI.strength = min 1 ((0.56:ℝ) * |mixedTI.technical_score|) :=
  ⟨mixedTI_regime,
   ( c6_theorem "X" mixedHist mixedTI analyze_mixedHist).1 (Or.inl mixedTI_regime)⟩

/-! ## Claim C9 -/

/-- C9 (code_bug): on a 10-point history, fewer than the period+1 = 15
points the 14-period ATR needs, calculate_atr silently returns the
default 0 instead of raising the insufficient-data error promised by its
docstring and by the error-handling design. -/
theorem c9_theorem : calculate_atr shortHist 14 = 0 ∧ shortHist.length < 14 + 1 := by
  constructor
  · decide!
  · decide

/-! ## Claim C5 -/

/-- C5 (corrected): on the worked example (current price 100, support
[90], resistance [110], atr 2) the trade-level calculator returns
idealEntry = 90.45 (support 90 times 1.005, not the claimed 98.0),
stopLoss = 89.55 (support stop 90 times 0.995, not the claimed 95.0),
target = 109.45 (resistance 110 times 0.995, which is at least 104) and
riskRewardRatio = 21.11, which is at least 2. -/
theorem c5_theorem :
    calculate_trade_levels 100 ti5 "BUY" =
      .ok ⟨9045/100, 8955/100, 10945/100, 3/2, 2111/100, 151/100⟩ := by
  decide!

/-- C5 counterexample: the entry and stop computed on the worked example
are 90.45 and 89.55, nowhere near the claimed 98.0 and 95.0 (not even
within a tolerance of plus-minus one). -/
theorem c5_counterexample :
    calculate_trade_levels 100 ti5 "BUY" = .ok tl5 ∧
    tl5.ideal_entry = 9045/100 ∧ tl5.stop_loss = 8955/100 ∧
    ¬ (97 ≤ tl5.ideal_entry) ∧ ¬ (94 ≤ tl5.stop_loss) := by
  refine ⟨by decide!, by decide!, by decide!, by decide!, by decide!⟩

/-! ## Claim C2 -/

/-- C2 (confirmed): every trade-levels value returned by
calculate_trade_levels for a BUY with positive current price,
nonnegative ATR and positive support/resistance levels has
riskRewardRatio at least 2.0 and stopLoss < idealEntry < target; the
TradeLevels constructor validation guarantees this for every value that
is actually returned. -/
theorem mkTradeLevels_ok (e st tg rpt rr ps : ℚ) (t : TradeLevels)
    (h : mkTradeLevels e st tg rpt rr ps = .ok t) :
    2 ≤ TradeLevels.riskReward t ∧ t.stop_loss < t.ideal_entry ∧
      t.ideal_entry < t.target := by
  unfold mkTradeLevels at h
  split_ifs at h with h1 h2 h3 h4 h5 h6 h7 <;> cases h
  exact ⟨not_lt.mp h7, lt_of_not_le h4, lt_of_not_le h5⟩

theorem c2_theorem (price : ℚ) (tech : TechnicalIndicators)
    (t : TradeLevels) (hp : 0 < price) (hatr : 0 ≤ tech.atr)
    (hsup : ∀ x ∈ tech.support_levels, 0 < x)
    (hres : ∀ x ∈ tech.resistance_levels, 0 < x)
    (h : calculate_trade_levels price tech "BUY" = .ok t) :
    2 ≤ TradeLevels.riskReward t ∧ t.stop_loss < t.ideal_entry ∧
      t.ideal_entry < t.target := by
  unfold calculate_trade_levels at h
  rw [if_neg (by decide)] at h
  exact mkTradeLevels_ok _ _ _ _ _ _ t h

/-- C2 witness: the hypotheses and the conclusion realized on the worked
trade-level example. -/
theorem c2_witness :
    ((0:ℚ) < 100 ∧ (0:ℚ) ≤ ti5.atr ∧
     (∀ x ∈ ti5.support_levels, 0 < x) ∧
     (∀ x ∈ ti5.resistance_levels, 0 < x) ∧
     calculate_trade_levels 100 ti5 "BUY" = .ok tl5) ∧
    (2 ≤ TradeLevels.riskReward tl5 ∧ tl5.stop_loss < tl5.ideal_entry ∧
      tl5.ideal_entry < tl5.target) := by
  have hok : calculate_trade_levels 100 ti5 "BUY" = .ok tl5 := by decide!
  exact ⟨⟨by norm_num, by decide!, by decide!, by decide!, hok⟩,
    c2_theorem 100 ti5 tl5 (by norm_num) (by decide!) (by decide!)
      (by decide!) hok⟩

/-! ## Claim C4 -/

theorem bitVal_decide (p : Prop) [Decidable p] :
    bitVal (decide p) = claimInd p := by
  by_cases h : p <;> simp [bitVal, claimInd, h]

theorem agrees_eq_claim (s : ℝ) (d : String) :
    bitVal (agrees_with_signal s d) = claimInd (claimBandAgrees s d) := by
  unfold agrees_with_signal claimBandAgrees
  split_ifs
  · exact bitVal_decide _
  · exact bitVal_decide _
  · by_cases ha : (-0.2:ℝ) ≤ s <;> by_cases hb : s ≤ (0.2:ℝ) <;>
      simp [bitVal, claimInd, ha, hb]

theorem market_eq_claim (ctx : MarketContext) (d : String) :
    bitVal (market_agrees ctx d) =
      claimInd (claimMarketAgrees ctx.market_state d) := by
  unfold market_agrees claimMarketAgrees
  split_ifs <;>
    by_cases hs1 : ctx.market_state = "bullish" <;>
    by_cases hs2 : ctx.market_state = "neutral" <;>
    by_cases hs3 : ctx.market_state = "bearish" <;>
    simp [bitVal, claimInd, hs1, hs2, hs3]

/-- C4 (corrected): the agreement score inside the confidence calculation
counts the sentiment, technical and fundamental signals as agreeing by
the plus-minus 0.2 band rule on their own scores, but counts the market
voter by market-state membership (neutral agrees with everything, bullish
with bullish, bearish with bearish) rather than by any score; the
resulting agreement score is the spec bucket value of that count. -/
theorem c4_theorem (sent : SentimentData) (tech : TechnicalIndicators)
    (fund : FundamentalMetrics) (combined : ℝ) (mc : Option MarketContext) :
    (calculate_confidence sent tech fund combined mc).2.agreement_score =
      pyRound2 (agreementBase mc.isSome
        (claimAgreeCount sent tech fund mc (signal_direction combined))) := by
  unfold calculate_confidence claimAgreeCount agreementBase
  cases mc with
  | none =>
    simp only []
    rw [agrees_eq_claim, agrees_eq_claim, agrees_eq_claim]
    rfl
  | some ctx =>
    simp only [agrees_eq_claim, market_eq_claim]
    rfl

/-- C4 counterexample: a neutral-state market context is counted as
agreeing both with a bullish and with a neutral fused direction, which no
single score subjected to the plus-minus 0.2 band rule can do; hence the
market voter does not follow the claimed same-side-of-the-band rule for
any assignment of a score to the context. -/
theorem c4_counterexample :
    market_agrees ctxNeutral "bullish" = true ∧
    market_agrees ctxNeutral "neutral" = true ∧
    ¬ ∃ f : MarketContext → ℚ, ∀ (ctx : MarketContext) (d : String),
        market_agrees ctx d = agrees_with_signal ((f ctx : ℚ) : ℝ) d := by
  refine ⟨by decide, by decide, ?_⟩
  rintro ⟨f, hf⟩
  have h1 := hf ctxNeutral "bullish"
  have h2 := hf ctxNeutral "neutral"
  rw [show market_agrees ctxNeutral "bullish" = true from by decide] at h1
  rw [show market_agrees ctxNeutral "neutral" = true from by decide] at h2
  unfold agrees_with_signal at h1 h2
  rw [if_pos rfl] at h1
  rw [if_neg (by decide), if_neg (by decide)] at h2
  have hx1 : (0.2:ℝ) < ((f ctxNeutral : ℚ) : ℝ) := of_decide_eq_true h1.symm
  have h2' := h2.symm
  rw [Bool.and_eq_true] at h2'
  have hx2 : ((f ctxNeutral : ℚ) : ℝ) ≤ 0.2 := of_decide_eq_true h2'.2
  linarith

/-! ## Claim C7 -/

theorem favVeryHighCap_le (lvl : String) (x : ℚ) : favVeryHighCap lvl x ≤ x := by
  unfold favVeryHighCap
  split_ifs
  · exact min_le_left _ _
  · exact le_refl _

theorem fav_le_of_bearish (lvl nt bt : String) :
    calculate_favorability "bearish" lvl nt bt ≤ 40/100 := by
  unfold calculate_favorability favBullishFloor
  rw [if_neg (by decide)]
  apply le_trans (min_le_right _ _)
  apply max_le (by norm_num)
  apply le_trans (favVeryHighCap_le _ _)
  unfold favBearishCap
  rw [if_pos rfl]
  exact min_le_right _ _

theorem fav_le_of_veryhigh (st : String) (hst : st ≠ "bullish")
    (nt bt : String) : calculate_favorability st "very_high" nt bt ≤ 25/100 := by
  unfold calculate_favorability favBullishFloor
  rw [if_neg hst]
  apply le_trans (min_le_right _ _)
  apply max_le (by norm_num)
  unfold favVeryHighCap
  rw [if_pos rfl]
  exact min_le_right _ _

theorem fav_ge_of_bullish (lvl nt bt : String) :
    70/100 ≤ calculate_favorability "bullish" lvl nt bt := by
  unfold calculate_favorability favBullishFloor
  rw [if_pos rfl]
  apply le_min (by norm_num)
  exact le_trans (le_max_right _ _) (le_max_right 0 _)

theorem state_of_veryhigh (nt bt : String) :
    determine_market_state nt bt "very_high" = "volatile" := by
  unfold determine_market_state
  rw [if_pos (Or.inr rfl)]

/-- C7 (confirmed): for every market context produced by the provider
(i.e. whose state is computed from the two index trends and the VIX
bucket), a bearish state forces favorability at most 0.40, a very-high
VIX forces favorability at most 0.25 (the state is then volatile, so the
bullish floor cannot interfere), and a bullish state forces favorability
at least 0.70. -/
theorem c7_theorem (nt bt : String) (vix : ℚ) :
    (determine_market_state nt bt (determine_vix_level vix) = "bearish" →
       calculate_favorability
         (determine_market_state nt bt (determine_vix_level vix))
         (determine_vix_level vix) nt bt ≤ 40/100) ∧
    (determine_vix_level vix = "very_high" →
       calculate_favorability
         (determine_market_state nt bt (determine_vix_level vix))
         (determine_vix_level vix) nt bt ≤ 25/100) ∧
    (determine_market_state nt bt (determine_vix_level vix) = "bullish" →
       70/100 ≤ calculate_favorability
         (determine_market_state nt bt (determine_vix_level vix))
         (determine_vix_level vix) nt bt) := by
  refine ⟨?_, ?_, ?_⟩
  · intro h
    rw [h]
    exact fav_le_of_bearish _ _ _
  · intro h
    have hst : determine_market_state nt bt (determine_vix_level vix) =
        "volatile" := by
      rw [h]
      exact state_of_veryhigh nt bt
    rw [hst, h]
    exact fav_le_of_veryhigh _ (by decide) _ _
  · intro h
    rw [h]
    exact fav_ge_of_bullish _ _ _

/-- C7 witness: the three favorability bounds realized on concrete
trend/VIX inputs (bearish indices with VIX 10; any trends with VIX 30;
bullish indices with VIX 10). -/
theorem c7_witness :
    (determine_market_state "bearish" "bearish" (determine_vix_level 10) =
       "bearish" ∧
     calculate_favorability
       (determine_market_state "bearish" "bearish" (determine_vix_level 10))
       (determine_vix_level 10) "bearish" "bearish" ≤ 40/100) ∧
    (determine_vix_level 30 = "very_high" ∧
     calculate_favorability
       (determine_market_state "neutral" "neutral" (determine_vix_level 30))
       (determine_vix_level 30) "neutral" "neutral" ≤ 25/100) ∧
    (determine_market_state "bullish" "bullish" (determine_vix_level 10) =
       "bullish" ∧
     70/100 ≤ calculate_favorability
       (determine_market_state "bullish" "bullish" (determine_vix_level 10))
       (determine_vix_level 10) "bullish" "bullish") := by
  have h1 : determine_market_state "bearish" "bearish" (determine_vix_level 10) =
      "bearish" := by decide!
  have h2 : determine_vix_level (30:ℚ) = "very_high" := by decide!
  have h3 : determine_market_state "bullish" "bullish" (determine_vix_level 10) =
      "bullish" := by decide!
  exact ⟨⟨h1, ( c7_theorem "bearish" "bearish" 10).1 h1⟩,
         ⟨h2, ( c7_theorem "neutral" "neutral" 30).2.1 h2⟩,
         ⟨h3, ( c7_theorem "bullish" "bullish" 10).2.2 h3⟩⟩

/-! ## Claim C8 -/

theorem normalize_sum (c : Configuration) :
    weightTotal (normalize_weights c) = 1 := by
  unfold normalize_weights
  split_ifs with h0 h1
  · norm_num [weightTotal]
  · show weightTotal ⟨_, _, _⟩ = 1
    unfold weightTotal at h0 ⊢
    dsimp only
    rw [div_add_div_same, div_add_div_same, div_self h0]
  · exact not_not.mp h1

theorem engineInit_sum (c : Configuration) :
    |weightTotal (engineInitConfig c) - 1| ≤ 1/1000 := by
  unfold engineInitConfig
  split_ifs with h1 h2 <;>
    first
      | (rw [normalize_sum]; norm_num)
      | exact not_lt.mp (by assumption)

/-- C8 (confirmed): for every configured weight triple and every market
state (the four table entries, an unrecognized state falling back to the
engine-normalized static weights, and the no-context case), the selected
fusion weights sum to 1 within 1e-3. -/
theorem c8_theorem (c : Configuration) (mc : Option MarketContext) :
    |weightSum (get_dynamic_weights (engineInitConfig c) mc) - 1| ≤ 1/1000 := by
  cases mc with
  | none =>
    have h := engineInit_sum c
    simpa [get_dynamic_weights, weightSum, weightTotal] using h
  | some ctx =>
    unfold get_dynamic_weights
    dsimp only
    split_ifs with h1 h2 h3 h4
    · norm_num [weightSum]
    · norm_num [weightSum]
    · norm_num [weightSum]
    · norm_num [weightSum]
    · have h := engineInit_sum c
      simpa [weightSum, weightTotal] using h

/-! ## Claim C3 -/

theorem check2_keeps_high (d : ℚ) (ctx : MarketContext)
    (acc : List String × String) (h : acc.2 = "high") :
    (check2 d ctx acc).2 = "high" := by
  unfold check2
  split_ifs <;> simp +decide [sevBump, h]

theorem check3_keeps_high (v : ℚ) (ctx : MarketContext)
    (acc : List String × String) (h : acc.2 = "high") :
    (check3 v ctx acc).2 = "high" := by
  unfold check3
  split_ifs <;> simp [h]

theorem check4_keeps_high (ctx : MarketContext)
    (acc : List String × String) (h : acc.2 = "high") :
    (check4 ctx acc).2 = "high" := by
  unfold check4
  split_ifs <;> simp +decide [sevBump, h]

theorem check5_keeps_high (ctx : MarketContext)
    (acc : List String × String) (h : acc.2 = "high") :
    (check5 ctx acc).2 = "high" := by
  unfold check5
  split_ifs <;> simp +decide [sevBump, h]

theorem check2_keeps_ne (d : ℚ) (ctx : MarketContext)
    (acc : List String × String) (h : acc.1 ≠ []) :
    (check2 d ctx acc).1 ≠ [] := by
  unfold check2
  split_ifs <;> simp [h]

theorem check3_keeps_ne (v : ℚ) (ctx : MarketContext)
    (acc : List String × String) (h : acc.1 ≠ []) :
    (check3 v ctx acc).1 ≠ [] := by
  unfold check3
  split_ifs <;> simp [h]

theorem check4_keeps_ne (ctx : MarketContext)
    (acc : List String × String) (h : acc.1 ≠ []) :
    (check4 ctx acc).1 ≠ [] := by
  unfold check4
  split_ifs <;> simp [h]

theorem check5_keeps_ne (ctx : MarketContext)
    (acc : List String × String) (h : acc.1 ≠ []) :
    (check5 ctx acc).1 ≠ [] := by
  unfold check5
  split_ifs <;> simp [h]

theorem noTradeChecks_high (v d : ℚ) (ctx : MarketContext)
    (h1 : ctx.market_state = "bearish")
    (h2 : ctx.vix_level = "high" ∨ ctx.vix_level = "very_high") :
    (noTradeChecks v d ctx).2 = "high" ∧ (noTradeChecks v d ctx).1 ≠ [] := by
  have hc1 : check1 ctx =
      (["Market is bearish with elevated volatility"], "high") := by
    unfold check1
    rw [if_pos ⟨h1, h2⟩]
  unfold noTradeChecks
  rw [hc1]
  constructor
  · exact check5_keeps_high _ _ (check4_keeps_high _ _
      (check3_keeps_high _ _ _ (check2_keeps_high _ _ _ rfl)))
  · exact check5_keeps_ne _ _ (check4_keeps_ne _ _
      (check3_keeps_ne _ _ _ (check2_keeps_ne _ _ _ (by simp))))

theorem noTradeChecks_clear (v d : ℚ) (ctx : MarketContext)
    (hc1 : ¬ (ctx.market_state = "bearish" ∧
              (ctx.vix_level = "high" ∨ ctx.vix_level = "very_high")))
    (hc2 : ¬ ((ctx.nifty_price - ctx.nifty_50dma) / ctx.nifty_50dma < -d))
    (hc3 : ¬ (v < ctx.vix_value))
    (hc4 : ¬ (ctx.nifty_trend = "bearish" ∧ ctx.banknifty_trend = "bearish" ∧
              (ctx.vix_level = "moderate" ∨ ctx.vix_level = "high" ∨
               ctx.vix_level = "very_high")))
    (hc5 : ¬ (ctx.market_state = "volatile" ∧ 20 < ctx.vix_value)) :
    noTradeChecks v d ctx = ([], "low") := by
  unfold noTradeChecks check1 check2 check3 check4 check5
  rw [if_neg hc1, if_neg hc2, if_neg hc3, if_neg hc4, if_neg hc5]

/-- C3 (corrected): for market contexts with a positive 50-day moving
average, a bearish state with very-high VIX always yields a blocking
signal of severity high; but a bullish state with low VIX yields a
non-blocking signal only when additionally the Nifty is not more than 3
percent below its 50-day average and the VIX value does not exceed the
25.0 spike threshold — otherwise checks 2 or 3 still fire. -/
theorem c3_theorem (ctx : MarketContext) (hma : 0 < ctx.nifty_50dma) :
    (ctx.market_state = "bearish" → ctx.vix_level = "very_high" →
       ∃ sig, check_market_conditions true 25 (3/100) (some ctx) = .ok sig ∧
         sig.is_no_trade = true ∧ sig.severity = "high") ∧
    (ctx.market_state = "bullish" → ctx.vix_level = "low" →
       ctx.vix_value ≤ 25 → (97/100) * ctx.nifty_50dma ≤ ctx.nifty_price →
       ∃ sig, check_market_conditions true 25 (3/100) (some ctx) = .ok sig ∧
         sig.is_no_trade = false) := by
  constructor
  · intro hst hvl
    obtain ⟨hsev, hne⟩ := noTradeChecks_high 25 (3/100) ctx hst (Or.inr hvl)
    unfold check_market_conditions
    rw [if_neg (by decide)]
    dsimp only
    rw [if_neg hma.ne']
    refine ⟨_, rfl, ?_, ?_⟩
    · dsimp only
      rw [hsev]
      simp [hne]
    · dsimp only
      rw [hsev]
  · intro hst hvl hvv hdrop
    have hclear : noTradeChecks 25 (3/100) ctx = ([], "low") := by
      apply noTradeChecks_clear
      · simp +decide [hst]
      · refine not_lt.mpr ?_
        rw [le_div_iff₀ hma]
        linarith
      · exact not_lt.mpr hvv
      · simp +decide [hvl]
      · simp +decide [hst]
    unfold check_market_conditions
    rw [if_neg (by decide)]
    dsimp only
    rw [if_neg hma.ne']
    refine ⟨_, rfl, ?_⟩
    dsimp only
    rw [hclear]
    decide

/-- C3 counterexample: a bullish, low-VIX context whose Nifty sits 10
percent below its 50-day moving average still triggers the drop check,
so the gate blocks with severity medium — refuting "bullish plus low VIX
always yields isNoTrade = false". -/
theorem c3_counterexample :
    check_market_conditions true 25 (3/100) (some ctxBullDrop) =
      .ok ⟨true,
           ["Nifty 50 is significantly below its 50-day moving average"],
           "Exercise extreme caution. Only high-conviction trades with tight stops.",
           "medium"⟩ := by
  decide!

/-- C3 witness: both halves of the corrected claim realized on concrete
contexts (a bearish very-high-VIX context and a healthy bullish low-VIX
context). -/
theorem c3_witness :
    ((0:ℚ) < ctxBearVH.nifty_50dma ∧ ctxBearVH.market_state = "bearish" ∧
     ctxBearVH.vix_level = "very_high" ∧
     (∃ sig, check_market_conditions true 25 (3/100) (some ctxBearVH) = .ok sig ∧
        sig.is_no_trade = true ∧ sig.severity = "high")) ∧
    ((0:ℚ) < ctxBullLow.nifty_50dma ∧ ctxBullLow.market_state = "bullish" ∧
     ctxBullLow.vix_level = "low" ∧ ctxBullLow.vix_value ≤ 25 ∧
     (97/100) * ctxBullLow.nifty_50dma ≤ ctxBullLow.nifty_price ∧
     (∃ sig, check_market_conditions true 25 (3/100) (some ctxBullLow) = .ok sig ∧
        sig.is_no_trade = false)) :=
  ⟨⟨by decide!, rfl, rfl, (c3_theorem ctxBearVH (by decide!)).1 rfl rfl⟩,
   ⟨by decide!, rfl, rfl, by decide!, by decide!,
    (c3_theorem ctxBullLow (by decide!)).2 rfl rfl (by decide!) (by decide!)⟩⟩

/-! ## Claim C10 -/

theorem mkRecommendation_ok_inv (s a : String) (c : ℚ) (sc : ℚ) (tc : ℝ)
    (fc : ℚ) (eLo eHi xLo xHi : Option ℚ) (tl : Option TradeLevels)
    (cb : Option ConfidenceBreakdown) (w : Option FusionWeights)
    (rec : Recommendation)
    (h : mkRecommendation s a c sc tc fc eLo eHi xLo xHi tl cb w = .ok rec) :
    rec = ⟨s, a, c, sc, tc, fc, eLo, eHi, xLo, xHi, tl, cb, w⟩ := by
  unfold mkRecommendation at h
  split_ifs at h <;> cases h
  rfl

theorem buildRecommendation_shape (symbol : String) (conf : ℚ)
    (sContrib : ℚ) (tContrib : ℝ) (fContrib : ℚ) (price : ℚ)
    (tech : TechnicalIndicators) (cb : ConfidenceBreakdown)
    (w : FusionWeights) (action : String) (rec : Recommendation)
    (h : buildRecommendation symbol conf sContrib tContrib fContrib price
           tech cb w action = .ok rec) :
    (rec.trade_levels.isSome = true ↔ rec.action = "BUY") ∧
    ((rec.entry_price_low.isSome = true ∧ rec.entry_price_high.isSome = true) ↔
       rec.action = "BUY") ∧
    ((rec.exit_price_low.isSome = true ∧ rec.exit_price_high.isSome = true) ↔
       rec.action = "SELL") := by
  unfold buildRecommendation at h
  by_cases hb : action = "BUY"
  · rw [if_pos hb] at h
    split at h
    · cases h
    · rename_i tl htl
      have hrec := mkRecommendation_ok_inv _ _ _ _ _ _ _ _ _ _ _ _ _ _ h
      subst hrec
      simp +decide [hb]
  · rw [if_neg hb] at h
    by_cases hs : action = "SELL"
    · rw [if_pos hs] at h
      have hrec := mkRecommendation_ok_inv _ _ _ _ _ _ _ _ _ _ _ _ _ _ h
      subst hrec
      simp +decide [hs, hb]
    · rw [if_neg hs] at h
      have hrec := mkRecommendation_ok_inv _ _ _ _ _ _ _ _ _ _ _ _ _ _ h
      subst hrec
      simp [hb, hs]

/-- C10 (confirmed): every recommendation value actually returned by
generate_recommendation carries trade levels if and only if its final
(post-downgrade) action is BUY, an entry price range iff the action is
BUY, and an exit price range iff the action is SELL; a HOLD carries
neither. -/
theorem c10_theorem (cfg : Configuration) (sent : SentimentData)
    (tech : TechnicalIndicators) (fund : FundamentalMetrics) (price : ℚ)
    (mc : Option MarketContext) (rec : Recommendation)
    (h : generate_recommendation cfg sent tech fund price mc = .ok rec) :
    (rec.trade_levels.isSome = true ↔ rec.action = "BUY") ∧
    ((rec.entry_price_low.isSome = true ∧ rec.entry_price_high.isSome = true) ↔
       rec.action = "BUY") ∧
    ((rec.exit_price_low.isSome = true ∧ rec.exit_price_high.isSome = true) ↔
       rec.action = "SELL") := by
  simp only [generate_recommendation] at h
  exact buildRecommendation_shape _ _ _ _ _ _ _ _ _ _ _ h

theorem c10_eval :
    generate_recommendation cfg0 sent0 tech0 fund0 100 none = .ok rec0 := by
  have hr35 : pyRound2 (35/100) = 35/100 := by decide!
  have hr12 : pyRound2 (1/2 : ℚ) = 1/2 := by decide!
  have hr0 : pyRound2 (0 : ℚ) = 0 := by decide!
  have hr8 : pyRound2 (8/10 : ℚ) = 8/10 := by decide!
  have hr3 : pyRound2 (3/10 : ℚ) = 3/10 := by decide!
  have hr720 : pyRound2 (7/20 : ℚ) = 7/20 := by decide!
  have hr45 : pyRound2 (4/5 : ℚ) = 4/5 := by decide!
  norm_num +decide [generate_recommendation, buildRecommendation,
    get_dynamic_weights, cfg0, sent0, tech0, fund0, calculate_confidence,
    signal_direction, agrees_with_signal, bitVal, mkRecommendation, rec0,
    cb0, hr35, hr12, hr0, hr8, hr3, hr720, hr45, min_def, max_def]

/-- C10 witness: a concrete HOLD recommendation produced on degenerate
inputs, with the claim conclusions obtained from the theorem. -/
theorem c10_witness :
    generate_recommendation cfg0 sent0 tech0 fund0 100 none = .ok rec0 ∧
    ((rec0.trade_levels.isSome = true ↔ rec0.action = "BUY") ∧
     ((rec0.entry_price_low.isSome = true ∧ rec0.entry_price_high.isSome = true) ↔
        rec0.action = "BUY") ∧
     ((rec0.exit_price_low.isSome = true ∧ rec0.exit_price_high.isSome = true) ↔
        rec0.action = "SELL")) :=
  ⟨c10_eval, c10_theorem cfg0 sent0 tech0 fund0 100 none rec0 c10_eval⟩

end StockAgent
